import Mathlib

/-!
# Verification of the cbm ETL normalization / validation core

A shallow embedding of the ETL core of the `cbm` backend
(`backend/etl/normalizers/{base,jira,clickup,github}.py`, `backend/etl/validator.py`,
`backend/etl/sla.py`, `backend/etl/mapping_validator.py`, `backend/etl/notifier.py`,
model layer `backend/metrics/models.py`), together with proofs of the
documented behavioural properties.

Conventions of the embedding:

* Timestamps are microseconds since the Unix epoch (UTC), represented as `Int`
  (Python `datetime` has microsecond precision; all datetimes in this code are
  timezone-aware UTC after `to_dt`).
* JSON payloads are the inductive `J`.  Python truthiness (`if not val`,
  `x or y`) is `J.truthy` / `J.pyOr`.
* Python code points that would raise `TypeError`/`AttributeError` on values of
  unexpected shape (e.g. `.lower()` on a non-string taken out of a payload) are
  totalised by the documented coercions (`J.pyStr`, `J.orString`, `J.asList`):
  such payloads abort the whole batch in the source and are outside every claim.
* Database tables are association lists keyed the way the source keys its
  upserts; `auto_now_add` timestamps are passed in as an explicit `now`.
* Python `float` fields (story points) are modelled as `Int`: no claim in scope
  depends on fractional points, only on presence/absence and determinism.
-/

set_option maxHeartbeats 1000000

/-! ## Generic string helpers -/

/-- `charsStartWith p s`: the char list `p` is an initial segment of `s`. -/
def charsStartWith : List Char → List Char → Bool
  | [], _ => true
  | _ :: _, [] => false
  | a :: as, b :: bs => a == b && charsStartWith as bs

/-- `charsContain p s`: `p` occurs contiguously somewhere in `s`. -/
def charsContain (pat : List Char) : List Char → Bool
  | [] => pat.isEmpty
  | c :: rest => charsStartWith pat (c :: rest) || charsContain pat rest

/-- Python `pat in hay` on strings (contiguous substring test). -/
def strContains (hay pat : String) : Bool :=
  charsContain pat.toList hay.toList

def digitsToNat? (cs : List Char) : Option Nat :=
  if cs.isEmpty || !cs.all Char.isDigit then none
  else some (cs.foldl (fun acc c => acc * 10 + (c.toNat - 48)) 0)

/-- ASCII lowercasing of one character (Python `str.lower` on the ASCII range
this code deals in). -/
def charLower (c : Char) : Char :=
  if 'A' ≤ c ∧ c ≤ 'Z' then Char.ofNat (c.toNat + 32) else c

/-- Python `s.lower()`. -/
def pyLower (s : String) : String :=
  String.mk (s.toList.map charLower)

/-- Python `s.strip()`: drop whitespace from both ends. -/
def pyStrip (s : String) : String :=
  String.mk (((s.toList.dropWhile Char.isWhitespace).reverse.dropWhile
    Char.isWhitespace).reverse)

/-- Replace every (non-overlapping, leftmost-first) occurrence of `pat`;
`fuel` bounds the recursion structurally (one unit per consumed character). -/
def charsReplace (pat rep : List Char) : Nat → List Char → List Char
  | 0, l => l
  | _ + 1, [] => []
  | fuel + 1, c :: rest =>
    if pat.length ≠ 0 ∧ charsStartWith pat (c :: rest) then
      rep ++ charsReplace pat rep fuel (List.drop (pat.length - 1) rest)
    else c :: charsReplace pat rep fuel rest

/-- Python `s.replace(pat, rep)`. -/
def pyReplace (s pat rep : String) : String :=
  String.mk (charsReplace pat.toList rep.toList s.toList.length s.toList)

/-- Python `int(s)` for a string: optional sign then decimal digits. -/
def intOfString? (s : String) : Option Int :=
  match s.toList with
  | '-' :: rest => (digitsToNat? rest).map (fun n => -(n : Int))
  | '+' :: rest => (digitsToNat? rest).map (fun n => (n : Int))
  | cs => (digitsToNat? cs).map (fun n => (n : Int))

/-! ## JSON values (`J`) and Python semantics -/

/-- A JSON value, as stored in the `payload` / `meta` / `config` JSONFields. -/
inductive J where
  | null
  | b (v : Bool)
  | n (v : Int)
  | s (v : String)
  | arr (xs : List J)
  | obj (kvs : List (String × J))
  deriving Repr

mutual
/-- Structural equality of JSON values (Python `==` on parsed JSON). -/
def J.beq : J → J → Bool
  | .null, .null => true
  | .b a, .b c => a == c
  | .n a, .n c => a == c
  | .s a, .s c => a == c
  | .arr a, .arr c => J.beqList a c
  | .obj a, .obj c => J.beqObj a c
  | _, _ => false

def J.beqList : List J → List J → Bool
  | [], [] => true
  | x :: xs, y :: ys => J.beq x y && J.beqList xs ys
  | _, _ => false

def J.beqObj : List (String × J) → List (String × J) → Bool
  | [], [] => true
  | (k, x) :: xs, (l, y) :: ys => k == l && J.beq x y && J.beqObj xs ys
  | _, _ => false
end

instance : BEq J := ⟨J.beq⟩

/-- Python truthiness of a JSON value (`bool(val)`). -/
def J.truthy : J → Bool
  | .null => false
  | .b v => v
  | .n v => v != 0
  | .s v => v != ""
  | .arr xs => !xs.isEmpty
  | .obj kvs => !kvs.isEmpty

/-- Python `a or b` (value-returning, short-circuit on truthiness). -/
def J.pyOr (a b : J) : J := if a.truthy then a else b

/-- `d.get(k)` on a JSON object; `null` when the key is absent.  On a non-object
receiver (where CPython would raise `AttributeError`, aborting the batch) the
model yields `null`; every use in the source guards the receiver with `or {}`. -/
def J.get (j : J) (k : String) : J :=
  match j with
  | .obj kvs =>
    match kvs.find? (fun kv => kv.1 == k) with
    | some kv => kv.2
    | none => .null
  | _ => .null

/-- `d.get(k, default)`: like `J.get` but with an explicit default for an
*absent* key (a key present with value `null` still yields `null`). -/
def J.getD (j : J) (k : String) (d : J) : J :=
  match j with
  | .obj kvs =>
    match kvs.find? (fun kv => kv.1 == k) with
    | some kv => kv.2
    | none => d
  | _ => d

/-- `k in d` on a JSON object. -/
def J.hasKey (j : J) (k : String) : Bool :=
  match j with
  | .obj kvs => kvs.any (fun kv => kv.1 == k)
  | _ => false

/-- Python `str(x)` for the scalar shapes the ETL code feeds it.  Arrays and
objects never reach a `str()` coercion on the modelled paths. -/
def J.pyStr : J → String
  | .s v => v
  | .n v => toString v
  | .b true => "True"
  | .b false => "False"
  | .null => "None"
  | .arr _ => ""
  | .obj _ => ""

/-- Model of `(x or default)` where the source goes on to use the result as a
string (e.g. calls `.lower()` on it).  A truthy non-string, on which CPython
would raise and abort the batch, is coerced via `J.pyStr`. -/
def J.orString (j : J) (d : String) : String :=
  if j.truthy then j.pyStr else d

/-- The elements of a JSON array; `[]` for any other shape (the source only
iterates values that are arrays on the modelled paths). -/
def J.asList : J → List J
  | .arr xs => xs
  | _ => []

/-- The key/value pairs of a JSON object (`d.items()`); `[]` otherwise. -/
def J.asObj : J → List (String × J)
  | .obj kvs => kvs
  | _ => []

/-- Python `int(v)` on a JSON value, `none` where CPython raises
(`int` of a non-numeric string, a list, a dict or `None`). -/
def J.pyInt? : J → Option Int
  | .n v => some v
  | .b true => some 1
  | .b false => some 0
  | .s v => intOfString? (pyStrip v)
  | _ => none

/-- Python `float(v)` on a JSON value, `none` where CPython raises.  Fractional
values are outside the model (points are modelled as integers). -/
def J.pyFloat? : J → Option Int
  | .n v => some v
  | .b true => some 1
  | .b false => some 0
  | .s v => intOfString? (pyStrip v)
  | _ => none

/-! ## Time: civil-calendar arithmetic and `to_dt` (`etl/normalizers/base.py`) -/

def isLeapYear (y : Nat) : Bool :=
  (y % 4 == 0 && y % 100 != 0) || (y % 400 == 0)

def daysInMonth (y m : Nat) : Nat :=
  if m == 2 then (if isLeapYear y then 29 else 28)
  else if m == 4 || m == 6 || m == 9 || m == 11 then 30
  else 31

/-- Days since the civil era origin, shifted by 400 years so that the standard
days-from-civil computation stays in `Nat` for every representable date. -/
def daysFromCivilShifted (y m d : Nat) : Nat :=
  let y' := if m ≤ 2 then y + 399 else y + 400
  let era := y' / 400
  let yoe := y' % 400
  let mp := (m + 9) % 12
  let doy := (153 * mp + 2) / 5 + (d - 1)
  let doe := yoe * 365 + yoe / 4 - yoe / 100 + doy
  era * 146097 + doe

/-- Microseconds since the Unix epoch of a civil UTC datetime. -/
def epochUs (y m d h mi s us : Nat) : Int :=
  ((daysFromCivilShifted y m d : Int) - (daysFromCivilShifted 1970 1 1 : Int)) * 86400000000
    + (h : Int) * 3600000000 + (mi : Int) * 60000000 + (s : Int) * 1000000 + (us : Int)

/-- Smallest instant representable by Python `datetime` (year 1). -/
def minInstant : Int := epochUs 1 1 1 0 0 0 0

/-- Largest instant representable by Python `datetime` (year 9999). -/
def maxInstant : Int := epochUs 9999 12 31 23 59 59 999999


/-- Parse `HH:MM[:SS[.ffffff]]` off the front of a char list; returns
`(hour, minute, second, microsecond, rest)`. -/
def parseTimePart : List Char → Option (Nat × Nat × Nat × Nat × List Char)
  | h1 :: h2 :: ':' :: m1 :: m2 :: rest => do
    let h ← digitsToNat? [h1, h2]
    let mi ← digitsToNat? [m1, m2]
    if h > 23 || mi > 59 then none
    else
      match rest with
      | ':' :: s1 :: s2 :: rest2 => do
        let s ← digitsToNat? [s1, s2]
        if s > 59 then none
        else
          match rest2 with
          | '.' :: rest3 =>
            let ds := rest3.takeWhile Char.isDigit
            let rest4 := rest3.dropWhile Char.isDigit
            if ds.length == 0 || ds.length > 6 then none
            else do
              let f ← digitsToNat? ((ds ++ List.replicate 6 '0').take 6)
              some (h, mi, s, f, rest4)
          | _ => some (h, mi, s, 0, rest2)
      | _ => some (h, mi, 0, 0, rest)
  | _ => none

/-- Parse a trailing UTC offset, in minutes east: empty (naive, assumed UTC per
the spec), `Z`, or `±HH:MM` (the source normalizes `±HHMM` to this form first). -/
def parseOffsetEnd : List Char → Option Int
  | [] => some 0
  | ['Z'] => some 0
  | [sgn, h1, h2, ':', m1, m2] => do
    let h ← digitsToNat? [h1, h2]
    let m ← digitsToNat? [m1, m2]
    if h > 23 || m > 59 then none
    else
      let mins : Int := (h : Int) * 60 + (m : Int)
      if sgn == '+' then some mins
      else if sgn == '-' then some (-mins) else none
  | _ => none

/-- Modelled from the spec: the ISO-8601 datetime parsing performed by
`django.utils.dateparse.parse_datetime` / `datetime.fromisoformat` (library
code not part of this repository).  Accepts `YYYY-MM-DD[{T, }HH:MM[:SS[.ffffff]]]`
with an optional `Z` or colon-delimited UTC offset suffix; naive datetimes are
assumed UTC (the source wraps naive results in `timezone.make_aware(..., utc)`).
Returns microseconds since the Unix epoch. -/
def isoParse (str : String) : Option Int :=
  match str.toList with
  | y1 :: y2 :: y3 :: y4 :: '-' :: m1 :: m2 :: '-' :: d1 :: d2 :: rest => do
    let y ← digitsToNat? [y1, y2, y3, y4]
    let m ← digitsToNat? [m1, m2]
    let d ← digitsToNat? [d1, d2]
    if y < 1 || m < 1 || m > 12 || d < 1 || d > daysInMonth y m then none
    else
      match rest with
      | [] => some (epochUs y m d 0 0 0 0)
      | sep :: t =>
        if sep != 'T' && sep != ' ' then none
        else do
          let (h, mi, s, us, rest2) ← parseTimePart t
          let off ← parseOffsetEnd rest2
          some (epochUs y m d h mi s us - off * 60000000)
  | _ => none

/-- The Jira-offset normalization step of `to_dt`:
`re.search(r"[+-]\d{4}$", s)` rewrites a trailing `±HHMM` to `±HH:MM`
(`s[:-5] + s[-5:-2] + ":" + s[-2:]`). -/
def normalizeJiraOffset (s : String) : String :=
  let cs := s.toList
  let n := cs.length
  if n ≥ 5 then
    match cs.drop (n - 5) with
    | [sgn, a, b, c, d] =>
      if (sgn == '+' || sgn == '-') && [a, b, c, d].all Char.isDigit then
        String.mk (cs.take (n - 5) ++ [sgn, a, b, ':', c, d])
      else s
    | _ => s
  else s

/-- `base.to_dt`: parse the many source timestamp formats.
`if not val: return None`; numeric epochs are milliseconds when above the
`10_000_000_000` threshold, else seconds (Python `bool` is an `int`, so `True`
is the epoch second 1); strings are trimmed, a trailing `±HHMM` offset is
normalized, then ISO-parsed, falling back to a retry with `Z` replaced by
`+00:00`; anything else is `None`.  The numeric branch is bounded by the
`datetime` year range (the source's `try/except` around `fromtimestamp`). -/
def to_dt (val : J) : Option Int :=
  if !val.truthy then none
  else
    match val with
    | .b _ => some 1000000
    | .n i =>
      let usec : Int := if i > 10000000000 then i * 1000 else i * 1000000
      if usec < minInstant || usec > maxInstant then none else some usec
    | .s v =>
      let s := pyStrip v
      let s := normalizeJiraOffset s
      match isoParse s with
      | some t => some t
      | none => isoParse (pyReplace s "Z" "+00:00")
    | _ => none

/-- `base.earliest`: `min(history_times) if history_times else None`. -/
def earliest (history_times : List Int) : Option Int :=
  history_times.min?

/-! ## `base.py` field extractors and config resolution -/

namespace Source

def JIRA : String := "jira"
def CLICKUP : String := "clickup"
def AZURE : String := "azure"
def GITHUB : String := "github"

end Source

namespace ItemType

def STORY : String := "story"
def BUG : String := "bug"
def TASK : String := "task"
def SUBTASK : String := "subtask"
def EPIC : String := "epic"

end ItemType

namespace RemediationStatus

def OPEN : String := "open"
def IN_PROGRESS : String := "in_progress"
def DONE : String := "done"

end RemediationStatus

/-- `base.cfg`: walk the active mapping config along `path`; a missing key, a
`null` value or a non-dict intermediate yields the default. -/
def cfgGo : J → List String → Option J
  | node, [] => some node
  | node, k :: ks =>
    match node with
    | .obj _ =>
      let next := node.get k
      if next == J.null then none else cfgGo next ks
    | _ => none

def cfg (config : J) (path : List String) (default : J) : J :=
  match cfgGo config path with
  | some v => if v == J.null then default else v
  | none => default

/-- `base.map_item_type`: case-insensitive substring match with priority order
bug, sub-task/subtask, epic, task; STORY is the fallback. -/
def map_item_type (name : J) : String :=
  let n := pyLower (name.orString "")
  if strContains n "bug" then ItemType.BUG
  else if strContains n "sub-task" || strContains n "subtask" then ItemType.SUBTASK
  else if strContains n "epic" then ItemType.EPIC
  else if strContains n "task" then ItemType.TASK
  else ItemType.STORY

/-- `base.contains_blocked`: "block" occurs (case-insensitively) in the status
name or in any label. -/
def contains_blocked (status_name : String) (labels : List String) : Bool :=
  if strContains (pyLower status_name) "block" then true
  else labels.any (fun l => strContains (pyLower l) "block")

/-! ## Canonical `WorkItem` rows and the keyed store (`metrics/models.py`) -/

/-- A canonical `WorkItem` row (the fields read or written by this core). -/
structure WorkItemRow where
  source : String
  source_id : String
  board : String
  title : String
  description : String
  item_type : String
  story_points : Option Int
  sprint_id : Option String
  client_id : Option String
  assignees : List String
  dev_owner : Option String
  status : String
  created_at : Option Int
  started_at : Option Int
  dev_started_at : Option Int
  dev_done_at : Option Int
  deployed_dev_at : Option Int
  ready_for_qa_at : Option Int
  qa_started_at : Option Int
  qa_verified_at : Option Int
  signed_off_at : Option Int
  ready_for_uat_at : Option Int
  deployed_uat_at : Option Int
  done_at : Option Int
  cancelled_at : Option Int
  closed : Bool
  blocked_flag : Bool
  blocked_since : Option Int
  blocked_reason : Option String
  parent_story : Option (String × String)
  linked_prs : J
  meta : J
  deriving Repr

/-- A fresh row with the model-level field defaults of `metrics.models.WorkItem`
(the fields Django fills when an upsert's `defaults` omit them). -/
def newRow (source source_id : String) : WorkItemRow where
  source := source
  source_id := source_id
  board := ""
  title := ""
  description := ""
  item_type := ItemType.STORY
  story_points := none
  sprint_id := none
  client_id := none
  assignees := []
  dev_owner := none
  status := "backlog"
  created_at := none
  started_at := none
  dev_started_at := none
  dev_done_at := none
  deployed_dev_at := none
  ready_for_qa_at := none
  qa_started_at := none
  qa_verified_at := none
  signed_off_at := none
  ready_for_uat_at := none
  deployed_uat_at := none
  done_at := none
  cancelled_at := none
  closed := false
  blocked_flag := false
  blocked_since := none
  blocked_reason := none
  parent_story := none
  linked_prs := J.arr []
  meta := J.obj []

/-- The `WorkItem` table, keyed by the unique `(source, source_id)`. -/
abbrev Key := String × String

abbrev Store := List (Key × WorkItemRow)

def findRow (st : Store) (k : Key) : Option WorkItemRow :=
  (st.find? (fun e => e.1 == k)).map (·.2)

/-- Keyed upsert: replace the row at `k` or append a new one. -/
def setRow : Store → Key → WorkItemRow → Store
  | [], k, r => [(k, r)]
  | e :: es, k, r => if e.1 == k then (k, r) :: es else e :: setRow es k r

/-- `base.upsert_parent`: `get_or_create` of a placeholder parent, keyed on
`(source, str(parent_key))`, with defaults `board`, `title="Parent <key>"`,
`item_type=STORY`.  Returns the parent key reference (the FK target). -/
def upsert_parent (st : Store) (board : String) (source : String) (parent_key : J) :
    Option Key × Store :=
  if !parent_key.truthy then (none, st)
  else
    let sid := parent_key.pyStr
    let k : Key := (source, sid)
    match findRow st k with
    | some _ => (some k, st)
    | none =>
      (some k, setRow st k
        { newRow source sid with board := board, title := "Parent " ++ sid,
                                 item_type := ItemType.STORY })

/-! ## Jira normalizer (`etl/normalizers/jira.py`) -/

/-- `JiraNormalizer.__init__`: board identity plus the two config reads.
A non-string configured `points_field` can never match a JSON object key
(modelled as `none`). -/
structure JiraNormalizer where
  board : String
  client_id : Option String
  points_field : Option String
  status_map : J

def JiraNormalizer.init (board : String) (client_id : Option String) (config : J) :
    JiraNormalizer where
  board := board
  client_id := client_id
  points_field :=
    match cfg config ["jira", "points_field"] (J.s "customfield_10016") with
    | .s v => some v
    | _ => none
  status_map := (cfg config ["jira", "status_map"] (J.obj [])).pyOr (J.obj [])

/-- `fields.get(self.points_field)` with the `Option String` key of
`JiraNormalizer.points_field`. -/
def getByOptKey (fields : J) (k : Option String) : J :=
  match k with
  | some key => fields.get key
  | none => J.null

/-- The configured status-name list for one canonical step:
`self.status_map.get(step, [])`, coerced to the `List[str]` the call sites
expect. -/
def JiraNormalizer.stepTargets (nz : JiraNormalizer) (step : String) : List String :=
  ((nz.status_map.getD step (J.arr [])).asList).map J.pyStr

/-- The matching changelog times of `JiraNormalizer._status_time`: for every
history entry with a parseable `created` time, every item with
`field == "status"` whose `toString` (lowercased) is among the lowercased
targets contributes that entry's time. -/
def status_hits (issue : J) (targets : List String) : List Int :=
  let targets_lower := targets.map pyLower
  let histories :=
    (((issue.pyOr (J.obj [])).get "changelog").pyOr (J.obj [])).getD "histories" (J.arr [])
      |>.pyOr (J.arr []) |>.asList
  (histories.map (fun h =>
    match to_dt (h.get "created") with
    | none => []
    | some w =>
      ((h.getD "items" (J.arr [])).pyOr (J.arr [])).asList.filterMap (fun item =>
        if (item.get "field") == (J.s "status")
            && targets_lower.contains (pyLower ((item.get "toString").orString ""))
        then some w else none))).flatten

/-- `JiraNormalizer._status_time`: earliest time the status moved into any of
the target names, scanning the changelog. -/
def status_time (issue : J) (targets : List String) : Option Int :=
  earliest (status_hits issue targets)

/-- Everything `JiraNormalizer.normalize` derives from one raw record before
the transactional upsert (lines 36-120): `none` when the record is skipped
(wrong source/object_type, or no key). -/
structure JiraExtract where
  keyStr : String
  parent_key : J
  title : String
  description : String
  item_type : String
  story_points : Option Int
  sprint_id : Option String
  assignees : List String
  dev_owner : Option String
  status : String
  created_at : Option Int
  started_at : Option Int
  dev_started_at : Option Int
  dev_done_at : Option Int
  ready_for_qa_at : Option Int
  qa_started_at : Option Int
  qa_verified_at : Option Int
  signed_off_at : Option Int
  ready_for_uat_at : Option Int
  deployed_uat_at : Option Int
  done_at : Option Int
  blocked_flag : Bool
  meta : J
  closed : Bool
  deriving Repr

/-- A raw payload record (`metrics.models.RawPayload`) as the normalizers read
it: `{source, object_type, payload}`. -/
structure RawPayload where
  source : String
  object_type : String
  payload : J
  deriving Repr

def jiraParse (nz : JiraNormalizer) (rp : RawPayload) : Option JiraExtract :=
  if rp.source != Source.JIRA || rp.object_type != "issue" then none
  else
    let issue := rp.payload
    let fields := (issue.get "fields").pyOr (J.obj [])
    let key := (issue.get "key").pyOr (issue.get "id")
    if !key.truthy then none
    else
      let title := (fields.get "summary").orString "Untitled"
      let itype := map_item_type (((fields.get "issuetype").pyOr (J.obj [])).get "name")
      let assignee := (fields.get "assignee").pyOr (J.obj [])
      let cand := ((assignee.get "displayName").pyOr (assignee.get "emailAddress")).pyOr
        (assignee.get "accountId")
      let assignees := if cand.truthy then [cand.pyStr] else []
      let dev_owner := assignees.head?
      let sp := getByOptKey fields nz.points_field
      let story_points := if sp == J.null then none else sp.pyFloat?
      let sprint_obj := fields.get "sprint"
      let sprint_id : Option String :=
        match sprint_obj with
        | .obj _ =>
          some ((((sprint_obj.get "id").pyOr (sprint_obj.get "name")).pyOr (J.s "")).pyStr)
        | _ =>
          let sprints := (fields.get "sprint").pyOr (fields.get "customfield_10020")
          match sprints with
          | .arr xs =>
            match xs.getLast? with
            | some s0 =>
              let v := match s0 with | .obj _ => s0.get "id" | _ => s0
              some ((v.pyOr (J.s "")).pyStr)
            | none => none
          | _ => none
      let status_name := (((fields.get "status").pyOr (J.obj [])).get "name").orString ""
      let labels := ((fields.get "labels").pyOr (J.arr [])).asList.map (·.orString "")
      let created_at := to_dt (fields.get "created")
      let resolutiondate := to_dt (fields.get "resolutiondate")
      let dev_started_at := status_time issue (nz.stepTargets "dev_started")
      let dev_done_at := status_time issue (nz.stepTargets "dev_done")
      let ready_for_qa_at := status_time issue (nz.stepTargets "ready_for_qa")
      let qa_started_at := status_time issue (nz.stepTargets "qa_started")
      let qa_verified_at := status_time issue (nz.stepTargets "qa_verified")
      let signed_off_at := status_time issue (nz.stepTargets "signed_off")
      let ready_for_uat_at := status_time issue (nz.stepTargets "ready_for_uat")
      let deployed_uat_at := status_time issue (nz.stepTargets "deployed_uat")
      let done_at := resolutiondate <|> status_time issue (nz.stepTargets "done")
      some
        { keyStr := key.pyStr
          parent_key := ((fields.get "parent").pyOr (J.obj [])).get "key"
          title := title
          description := (fields.get "description").orString ""
          item_type := itype
          story_points := story_points
          sprint_id := sprint_id
          assignees := assignees
          dev_owner := dev_owner
          status := if status_name != "" then status_name else "backlog"
          created_at := created_at
          started_at := dev_started_at <|> created_at
          dev_started_at := dev_started_at
          dev_done_at := dev_done_at
          ready_for_qa_at := ready_for_qa_at
          qa_started_at := qa_started_at
          qa_verified_at := qa_verified_at
          signed_off_at := signed_off_at
          ready_for_uat_at := ready_for_uat_at
          deployed_uat_at := deployed_uat_at
          done_at := done_at
          blocked_flag := contains_blocked status_name labels
          meta := J.obj [("project", ((fields.get "project").pyOr (J.obj [])).get "key")]
          closed := done_at.isSome }

/-- The carry-forward / set / clear of `blocked_since` inside the transaction
of `JiraNormalizer.normalize` (lines 122-137). -/
def blockedSinceNext (existing : Option WorkItemRow) (blocked_flag : Bool) (now : Int) :
    Option Int :=
  match existing with
  | some ex =>
    if blocked_flag && !ex.blocked_flag then some now
    else if blocked_flag && ex.blocked_flag then
      match ex.blocked_since with
      | some s => some s
      | none => some now
    else none
  | none => if blocked_flag then some now else none

/-- The `defaults=...` record update of the Jira `update_or_create`: every field
named in `defaults` is overwritten, everything else keeps the base row's value. -/
def applyJiraDefaults (base : WorkItemRow) (board : String) (client_id : Option String)
    (e : JiraExtract) (parent_story : Option Key) (blocked_since : Option Int) :
    WorkItemRow :=
  { base with
    board := board
    title := e.title
    description := e.description
    item_type := e.item_type
    story_points := e.story_points
    sprint_id := e.sprint_id
    client_id := client_id
    assignees := e.assignees
    dev_owner := e.dev_owner
    status := e.status
    created_at := e.created_at
    started_at := e.started_at
    dev_started_at := e.dev_started_at
    dev_done_at := e.dev_done_at
    deployed_dev_at := none
    ready_for_qa_at := e.ready_for_qa_at
    qa_started_at := e.qa_started_at
    qa_verified_at := e.qa_verified_at
    signed_off_at := e.signed_off_at
    ready_for_uat_at := e.ready_for_uat_at
    deployed_uat_at := e.deployed_uat_at
    done_at := e.done_at
    blocked_flag := e.blocked_flag
    parent_story := parent_story
    meta := e.meta
    closed := e.closed
    blocked_since := blocked_since }

/-- One loop iteration of `JiraNormalizer.normalize`: skip or parse, upsert the
placeholder parent, read the existing row under lock, compute `blocked_since`,
and upsert under `(JIRA, str(key))`.  Returns the new store and the count
contribution. -/
def JiraNormalizer.normalizeOne (nz : JiraNormalizer) (now : Int) (st : Store)
    (rp : RawPayload) : Store × Nat :=
  match jiraParse nz rp with
  | none => (st, 0)
  | some e =>
    let ps := upsert_parent st nz.board Source.JIRA e.parent_key
    let st1 := ps.2
    let k : Key := (Source.JIRA, e.keyStr)
    let existing := findRow st1 k
    let bs := blockedSinceNext existing e.blocked_flag now
    let base := existing.getD (newRow Source.JIRA e.keyStr)
    (setRow st1 k (applyJiraDefaults base nz.board nz.client_id e ps.1 bs), 1)

/-- `JiraNormalizer.normalize` over a batch: fold of `normalizeOne`,
accumulating the processed count. -/
def JiraNormalizer.normalize (nz : JiraNormalizer) (now : Int)
    (raw_items : List RawPayload) (st : Store) : Store × Nat :=
  raw_items.foldl
    (fun acc rp =>
      let r := nz.normalizeOne now acc.1 rp
      (r.1, acc.2 + r.2))
    (st, 0)

/-! ## ClickUp normalizer (`etl/normalizers/clickup.py`) -/

structure ClickUpNormalizer where
  board : String
  client_id : Option String
  points_field_name : String

def ClickUpNormalizer.init (board : String) (client_id : Option String) (config : J) :
    ClickUpNormalizer where
  board := board
  client_id := client_id
  points_field_name :=
    pyLower ((cfg config ["clickup", "points_field_name"] (J.s "Story Points")).orString "")

/-- `ClickUpNormalizer._points_from_custom`: the first custom field whose name
matches (case-insensitively) decides the result; a null value or a failed
`float()` yields `None` without trying further fields. -/
def ClickUpNormalizer.points_from_custom (nz : ClickUpNormalizer) (cf_list : List J) :
    Option Int :=
  match cf_list.find? (fun cf => pyLower ((cf.get "name").orString "") == nz.points_field_name) with
  | some cf =>
    let val := cf.get "value"
    if val == J.null then none else val.pyFloat?
  | none => none

/-- The field extraction of `ClickUpNormalizer.normalize` for one record
(lines 25-57): `none` when the record is skipped. -/
structure ClickUpExtract where
  tidStr : String
  title : String
  item_type : String
  story_points : Option Int
  sprint_id : Option String
  assignees : List String
  dev_owner : Option String
  status : String
  created_at : Option Int
  done_at : Option Int
  meta : J
  deriving Repr

def clickupParse (nz : ClickUpNormalizer) (rp : RawPayload) : Option ClickUpExtract :=
  if rp.source != Source.CLICKUP || rp.object_type != "task" then none
  else
    let t := rp.payload.pyOr (J.obj [])
    let tid := t.get "id"
    if !tid.truthy then none
    else
      let title := (t.get "name").orString "Untitled"
      let status_name := (((t.get "status").pyOr (J.obj [])).get "status").orString ""
      let itype := if strContains (pyLower title) "bug" then ItemType.BUG else ItemType.STORY
      let assignees := ((t.get "assignees").pyOr (J.arr [])).asList.filterMap (fun a =>
        let name := ((a.get "username").pyOr (a.get "email")).pyOr (a.get "id")
        if name.truthy then some name.pyStr else none)
      let created_at := to_dt (t.get "date_created")
      let done_at := to_dt (t.get "date_closed")
      let custom_fields := ((t.get "custom_fields").pyOr (J.arr [])).asList
      let story_points := nz.points_from_custom custom_fields
      let sprint_id : Option String :=
        match custom_fields.find? (fun cf =>
            let nm := pyLower ((cf.get "name").orString "")
            nm == "sprint" || nm == "iteration") with
        | some cf =>
          let v := cf.get "value"
          if v.truthy then
            some ((match v with | .obj _ => v.get "id" | _ => v).pyStr)
          else none
        | none => none
      some
        { tidStr := tid.pyStr
          title := title
          item_type := itype
          story_points := story_points
          sprint_id := sprint_id
          assignees := assignees
          dev_owner := assignees.head?
          status := if status_name != "" then status_name else "backlog"
          created_at := created_at
          done_at := done_at
          meta := J.obj [("list_id", ((t.get "list").pyOr (J.obj [])).get "id")] }

/-- The `defaults=...` of the ClickUp `update_or_create` (lines 59-78):
only these fields are written; ClickUp has no changelog, so
`started_at := created_at` and the dev/QA step timestamps are untouched. -/
def applyClickUpDefaults (base : WorkItemRow) (board : String) (client_id : Option String)
    (e : ClickUpExtract) : WorkItemRow :=
  { base with
    board := board
    title := e.title
    item_type := e.item_type
    story_points := e.story_points
    sprint_id := e.sprint_id
    client_id := client_id
    assignees := e.assignees
    dev_owner := e.dev_owner
    status := e.status
    created_at := e.created_at
    started_at := e.created_at
    done_at := e.done_at
    closed := e.done_at.isSome
    meta := e.meta }

def ClickUpNormalizer.normalizeOne (nz : ClickUpNormalizer) (st : Store)
    (rp : RawPayload) : Store × Nat :=
  match clickupParse nz rp with
  | none => (st, 0)
  | some e =>
    let k : Key := (Source.CLICKUP, e.tidStr)
    let base := (findRow st k).getD (newRow Source.CLICKUP e.tidStr)
    (setRow st k (applyClickUpDefaults base nz.board nz.client_id e), 1)

def ClickUpNormalizer.normalize (nz : ClickUpNormalizer) (raw_items : List RawPayload)
    (st : Store) : Store × Nat :=
  raw_items.foldl
    (fun acc rp =>
      let r := nz.normalizeOne acc.1 rp
      (r.1, acc.2 + r.2))
    (st, 0)

/-! ## GitHub PR normalizer (`etl/normalizers/github.py`) -/

/-- A `metrics.models.PR` row as built by `GitHubPRNormalizer.normalize`
(the work-item linking of lines 61-91 is outside every claim and not modelled). -/
structure PRRow where
  pr_id : String
  source : String
  title : String
  branch : J
  opened_at : Option Int
  first_reviewed_at : Option Int
  merged_at : Option Int
  author_id : J
  reviewer_ids : List J
  meta : J
  deriving Repr

/-- The review loop of `GitHubPRNormalizer.normalize` (lines 36-43): collect
reviewer logins first-seen-first (skipping falsy and repeated ids) and set
`first_reviewed_at` from the first review whose `submitted_at` is truthy while
`first_reviewed_at` is still `None`. -/
def pr_review_scan (reviews : List J) : List J × Option Int :=
  reviews.foldl
    (fun (acc : List J × Option Int) r =>
      let rid := ((r.get "user").pyOr (J.obj [])).get "login"
      let reviewers := if rid.truthy && !acc.1.contains rid then acc.1 ++ [rid] else acc.1
      let first_reviewed_at :=
        if (r.get "submitted_at").truthy && acc.2.isNone then to_dt (r.get "submitted_at")
        else acc.2
      (reviewers, first_reviewed_at))
    ([], none)

/-- `GitHubPRNormalizer.normalize` for one record, up to the PR-row upsert
(lines 17-59): `none` when the record is skipped (wrong source/type or missing
owner/name/number). -/
def githubNormalizePR (rp : RawPayload) : Option PRRow :=
  if rp.source != Source.GITHUB || rp.object_type != "pr" then none
  else
    let payload := rp.payload.pyOr (J.obj [])
    let repo := (payload.get "repo").pyOr (J.obj [])
    let pr := (payload.get "pr").pyOr (J.obj [])
    let reviews := ((payload.get "reviews").pyOr (J.arr [])).asList
    let owner := repo.get "owner"
    let name := repo.get "name"
    let number := pr.get "number"
    if !(owner.truthy && name.truthy && number.truthy) then none
    else
      let scan := pr_review_scan reviews
      some
        { pr_id := owner.pyStr ++ "/" ++ name.pyStr ++ "#" ++ number.pyStr
          source := Source.GITHUB
          title := (pr.get "title").orString ""
          branch := ((pr.get "head").pyOr (J.obj [])).get "ref"
          opened_at := to_dt (pr.get "created_at")
          first_reviewed_at := scan.2
          merged_at := to_dt (pr.get "merged_at")
          author_id := ((pr.get "user").pyOr (J.obj [])).get "login"
          reviewer_ids := scan.1
          meta := J.obj [("repo", J.s (owner.pyStr ++ "/" ++ name.pyStr))] }

/-- The specification's reading of the first-review timestamp: the minimum
`submitted_at` among all review records (null when none parses). -/
def spec_first_review (reviews : List J) : Option Int :=
  earliest (reviews.filterMap (fun r => to_dt (r.get "submitted_at")))

/-- The specification's reading of the reviewer set: the ordered-unique list of
reviewer identifiers in review order. -/
def spec_ordered_unique (xs : List J) : List J :=
  xs.foldl (fun acc x => if acc.contains x then acc else acc ++ [x]) []

/-- The reviewer identifier of one review record, when present. -/
def spec_reviewer_id (r : J) : Option J :=
  let rid := ((r.get "user").pyOr (J.obj [])).get "login"
  if rid.truthy then some rid else none

/-! ## Remediation tickets: `open_ticket` / `resolve_ticket_if_any`
(`etl/validator.py`) -/

/-- A `metrics.models.RemediationTicket` row.  Note the model declares *no*
`updated_at` column (`created_at` is `auto_now_add`, `resolved_at` nullable). -/
structure Ticket where
  board : String
  work_item : Option String
  rule_code : String
  message : String
  status : String := RemediationStatus.OPEN
  created_at : Int
  resolved_at : Option Int := none
  meta : J := J.obj []
  deriving Repr

/-- The filter of both ticket helpers: same `(board, work_item, rule_code)` key
and status not `done`. -/
def isNonDoneFor (board : String) (work_item : Option String) (rule_code : String)
    (t : Ticket) : Bool :=
  t.board == board && t.work_item == work_item && t.rule_code == rule_code
    && t.status != RemediationStatus.DONE

/-- The ticket table, most recently created first (so that `List.find?` is
`.order_by("-created_at").first()` and creation is a prepend). -/
abbrev TicketStore := List Ticket

/-- Update the first ticket matching `p` in place, leaving the rest alone. -/
def updateFirstWhere (p : Ticket → Bool) (f : Ticket → Ticket) : TicketStore → TicketStore
  | [] => []
  | t :: ts => if p t then f t :: ts else t :: updateFirstWhere p f ts

/-- The in-place refresh of `open_ticket` on a found ticket: message and meta
are each overwritten only if changed, and meta only when the new meta is
truthy (`if meta and (rt.meta or {}) != meta`). -/
def applyOpenUpdate (message : String) (meta : J) (rt : Ticket) : Ticket :=
  let rt := if rt.message != message then { rt with message := message } else rt
  let rt :=
    if meta.truthy && !((if rt.meta.truthy then rt.meta else J.obj []) == meta) then
      { rt with meta := meta }
    else rt
  rt

/-- `validator.open_ticket`: find the newest open/in-progress ticket for the
`(board, work_item, rule_code)` key and refresh it, or create a fresh `open`
one.  Returns the ticket and the new table. -/
def open_ticket (board : String) (work_item : Option String) (rule_code : String)
    (message : String) (meta : J) (now : Int) (store : TicketStore) :
    Ticket × TicketStore :=
  let meta := if meta.truthy then meta else J.obj []
  match store.find? (isNonDoneFor board work_item rule_code) with
  | some rt =>
    (applyOpenUpdate message meta rt,
     updateFirstWhere (isNonDoneFor board work_item rule_code) (applyOpenUpdate message meta)
       store)
  | none =>
    let rt : Ticket :=
      { board := board, work_item := work_item, rule_code := rule_code,
        message := message, meta := meta, status := RemediationStatus.OPEN,
        created_at := now, resolved_at := none }
    (rt, rt :: store)

/-- `validator.resolve_ticket_if_any`: mark every non-done ticket for the key
as done with `resolved_at = now`. -/
def resolve_ticket_if_any (board : String) (work_item : Option String)
    (rule_code : String) (now : Int) (store : TicketStore) : TicketStore :=
  store.map (fun t =>
    if isNonDoneFor board work_item rule_code t then
      { t with status := RemediationStatus.DONE, resolved_at := some now }
    else t)

/-! ## SLA limit resolution (`etl/sla.py`, `_hours_for_item`) -/

/-- Case-lowered dict comprehension `{k.lower(): v for k, v in m.items()}`:
later duplicates override earlier ones. -/
def lowerKeysLastWins (m : List (String × J)) : List (String × J) :=
  m.foldl
    (fun acc kv =>
      if acc.any (fun e => e.1 == pyLower kv.1) then
        acc.map (fun e => if e.1 == pyLower kv.1 then (e.1, kv.2) else e)
      else acc ++ [(pyLower kv.1, kv.2)])
    []

def lookupAssoc (m : List (String × J)) (k : String) : Option J :=
  (m.find? (fun e => e.1 == k)).map (·.2)

/-- `sla._hours_for_item`: per-item SLA limit, priority-override (from
`meta.priority` / `meta.Priority`, falling back to a label that names a
priority key) then type-override then the global `blocked_hours` default. -/
def hours_for_item (slaCfg : J) (defaults : J) (wi : WorkItemRow) : Int :=
  let pri_map :=
    (((slaCfg.get "by_priority").pyOr (J.obj [])).pyOr
      ((defaults.get "by_priority").pyOr (J.obj []))).asObj
  let priority0 := pyStrip (((wi.meta.get "priority").pyOr (wi.meta.get "Priority")).orString "")
  let priority :=
    if priority0 == "" then
      match ((wi.meta.get "labels").pyOr (J.arr [])).asList.find? (fun l =>
          pri_map.any (fun kv => pyLower kv.1 == pyLower l.pyStr)) with
      | some l => l.pyStr
      | none => ""
    else priority0
  let priPick : Option Int :=
    if priority != "" then
      (pri_map.filterMap (fun kv =>
        if pyLower priority == pyLower kv.1 then kv.2.pyInt? else none)).head?
    else none
  match priPick with
  | some v => v
  | none =>
    let type_map :=
      (((slaCfg.get "by_type").pyOr (J.obj [])).pyOr
        ((defaults.get "by_type").pyOr (J.obj []))).asObj
    let lowered := lowerKeysLastWins type_map
    let t := pyLower wi.item_type
    let typePick : Option Int :=
      match lookupAssoc lowered t with
      | some v => v.pyInt?
      | none => none
    match typePick with
    | some v => v
    | none =>
      match (slaCfg.getD "blocked_hours" (defaults.getD "blocked_hours" (J.n 48))).pyInt? with
      | some v => v
      | none => 48

/-- The specification's SLA precedence, stated directly: the `by_priority`
value whose key matches the item priority case-insensitively, else the
`by_type` value for the item's type, else the global default. -/
def sla_spec_limit (by_priority by_type : List (String × Int)) (global_default : Int)
    (priority item_type : String) : Int :=
  match by_priority.find? (fun kv => pyLower priority == pyLower kv.1) with
  | some kv => kv.2
  | none =>
    match by_type.find? (fun kv => pyLower kv.1 == pyLower item_type) with
    | some kv => kv.2
    | none => global_default

/-! ## Mapping config validator (`etl/mapping_validator.py`) -/

structure PathMsg where
  path : String
  msg : String
  deriving Repr, DecidableEq

structure MappingValidation where
  ok : Bool
  errors : List PathMsg
  warnings : List PathMsg
  normalized : J
  deriving Repr

def REQUIRED_KEYS : List (String × List String) :=
  [("jira", ["points_field", "status_map"]),
   ("clickup", ["points_field_name"]),
   ("azure", ["points_field"]),
   ("github", ["link_patterns"])]

def CANONICAL_STEPS : List String :=
  ["dev_started", "dev_done", "ready_for_qa", "qa_started", "qa_verified",
   "signed_off", "ready_for_uat", "deployed_uat", "done"]

/-- Modelled from the spec: acceptance by `re.compile` (the Python regex
compiler, library code outside this repository).  The spec requires only that
`github.link_patterns` values be syntactically valid regular expressions; the
model checks escape/group/class bracket balance, which classifies every
pattern the claims exercise. -/
def re_compile_ok (pat : String) : Bool :=
  go pat.toList 0 false
where
  go : List Char → Nat → Bool → Bool
  | [], depth, inClass => depth == 0 && !inClass
  | c :: rest, depth, inClass =>
    if c == '\\' then
      match rest with
      | [] => false
      | _ :: r => go r depth inClass
    else if inClass then
      if c == ']' then go rest depth false else go rest depth inClass
    else if c == '[' then go rest depth true
    else if c == '(' then go rest (depth + 1) false
    else if c == ')' then (if depth == 0 then false else go rest (depth - 1) false)
    else go rest depth inClass

/-- `mapping_validator._nonempty_list`: a list whose members are all non-blank
strings (note: by Python `all` semantics the empty list passes). -/
def nonempty_list (val : J) : Bool :=
  match val with
  | .arr xs => xs.all (fun x => match x with | .s v => pyStrip v != "" | _ => false)
  | _ => false

def isJStr : J → Bool
  | .s _ => true
  | _ => false

/-- Record the step a lowered status name was first seen in (`seen[key] = step`). -/
def setSeen (seen : List (String × String)) (key step : String) : List (String × String) :=
  match seen.find? (fun e => e.1 == key) with
  | some _ => seen.map (fun e => if e.1 == key then (e.1, step) else e)
  | none => seen ++ [(key, step)]

/-- `mapping_validator.validate_mapping_config`, ported block by block in
source order.  Human-readable message texts are abbreviated (quote characters
omitted); the `path` strings are exact. -/
def validate_mapping_config (cfg0 : J) : MappingValidation :=
  let cfg := if cfg0.truthy then cfg0 else J.obj []
  let errors : List PathMsg := []
  let warnings : List PathMsg := []
  let errors := REQUIRED_KEYS.foldl
    (fun es sect =>
      if !(cfg.hasKey sect.1) then es ++ [⟨sect.1, "Missing " ++ sect.1 ++ " section"⟩]
      else
        let sec := (cfg.get sect.1).pyOr (J.obj [])
        sect.2.foldl
          (fun es k =>
            if !(sec.hasKey k) then es ++ [⟨sect.1 ++ "." ++ k, "Missing " ++ k⟩] else es)
          es)
    errors
  let jira := (cfg.getD "jira" (J.obj [])).pyOr (J.obj [])
  let errors :=
    if jira.hasKey "points_field" && !(isJStr (jira.get "points_field")) then
      errors ++ [⟨"jira.points_field", "Must be a string"⟩]
    else errors
  let status_map := (jira.getD "status_map" (J.obj [])).pyOr (J.obj [])
  let ew : List PathMsg × List PathMsg :=
    match status_map with
    | .obj kvs =>
      let ew := CANONICAL_STEPS.foldl
        (fun (ew : List PathMsg × List PathMsg) step =>
          let vals := status_map.get step
          if vals == J.null then
            (ew.1, ew.2 ++
              [⟨"jira.status_map." ++ step,
                "Not mapped - timestamps for this step wont be set"⟩])
          else if !(nonempty_list vals) then
            (ew.1 ++ [⟨"jira.status_map." ++ step, "Must be a non-empty list of status names"⟩],
             ew.2)
          else ew)
        (errors, warnings)
      let dup := kvs.foldl
        (fun (acc : (List PathMsg × List PathMsg) × List (String × String)) kv =>
          match kv.2 with
          | .arr arr =>
            arr.foldl
              (fun (acc : (List PathMsg × List PathMsg) × List (String × String)) s =>
                let key := pyStrip (pyLower s.pyStr)
                if key == "" then
                  ((acc.1.1 ++ [⟨"jira.status_map." ++ kv.1, "Empty status string"⟩],
                    acc.1.2), acc.2)
                else
                  match acc.2.find? (fun e => e.1 == key) with
                  | some e =>
                    if e.2 != kv.1 then
                      ((acc.1.1, acc.1.2 ++
                        [⟨"jira.status_map",
                          "Status " ++ s.pyStr ++ " appears in multiple steps: "
                            ++ e.2 ++ " and " ++ kv.1⟩]), acc.2)
                    else ((acc.1.1, acc.1.2), setSeen acc.2 key kv.1)
                  | none => ((acc.1.1, acc.1.2), setSeen acc.2 key kv.1))
              acc
          | _ =>
            ((acc.1.1 ++ [⟨"jira.status_map." ++ kv.1, "Must be a list"⟩], acc.1.2), acc.2))
        (ew, ([] : List (String × String)))
      dup.1
    | _ => (errors ++ [⟨"jira.status_map", "Must be an object of arrays"⟩], warnings)
  let errors := ew.1
  let warnings := ew.2
  let clickup := (cfg.getD "clickup" (J.obj [])).pyOr (J.obj [])
  let errors :=
    if clickup.hasKey "points_field_name" && !(isJStr (clickup.get "points_field_name")) then
      errors ++ [⟨"clickup.points_field_name", "Must be a string"⟩]
    else errors
  let azure := (cfg.getD "azure" (J.obj [])).pyOr (J.obj [])
  let errors :=
    if azure.hasKey "points_field" && !(isJStr (azure.get "points_field")) then
      errors ++ [⟨"azure.points_field", "Must be a string"⟩]
    else errors
  let github := (cfg.getD "github" (J.obj [])).pyOr (J.obj [])
  let link_patterns := (github.getD "link_patterns" (J.obj [])).pyOr (J.obj [])
  let errors :=
    match link_patterns with
    | .obj kvs =>
      kvs.foldl
        (fun es kv =>
          match kv.2 with
          | .s pat =>
            if !(re_compile_ok pat) then
              es ++ [⟨"github.link_patterns." ++ kv.1, "Invalid regex"⟩]
            else es
          | _ => es ++ [⟨"github.link_patterns." ++ kv.1, "Must be a regex string"⟩])
        errors
    | _ => errors ++ [⟨"github.link_patterns", "Must be an object (name to regex string)"⟩]
  let validatorSec := cfg.get "validator"
  let errors :=
    if validatorSec != J.null && !(match validatorSec with | .obj _ => true | _ => false) then
      errors ++ [⟨"validator", "Must be an object with numeric thresholds"⟩]
    else
      ["max_dev_days_without_progress", "max_ready_for_qa_days", "max_qa_days"].foldl
        (fun es k =>
          if (validatorSec.pyOr (J.obj [])).hasKey k then
            let v := validatorSec.get k
            match v with
            | .n x => if x < 0 then es ++ [⟨"validator." ++ k, "Must be a non-negative number"⟩] else es
            | .b _ => es
            | _ => es ++ [⟨"validator." ++ k, "Must be a non-negative number"⟩]
          else es)
        errors
  { ok := errors.isEmpty, errors := errors, warnings := warnings, normalized := cfg }

/-! ## Notification grouping (`etl/notifier.py`) -/

/-- An `etl.models.NotificationChannel` as read by the notifier: its rule
allow-list (`channel.rules or []`). -/
structure NotificationChannel where
  rules : List String

/-- `notifier._should_include`: empty allow-list means all rules. -/
def should_include (rule : String) (channel : NotificationChannel) : Bool :=
  if channel.rules.isEmpty then true else channel.rules.contains rule

structure GroupEntry where
  rule : String
  count : Nat
  samples : List String
  deriving Repr, DecidableEq

/-- One `grouped.setdefault(...)`-plus-update step of the recent-ticket loop:
bump the rule's count and append the sample tag if unseen. -/
def addToEntry (e : GroupEntry) (tag : String) : GroupEntry :=
  { e with count := e.count + 1,
           samples := if e.samples.contains tag then e.samples else e.samples ++ [tag] }

def updateGroup (g : List (String × GroupEntry)) (rule tag : String) :
    List (String × GroupEntry) :=
  match g.find? (fun e => e.1 == rule) with
  | some _ => g.map (fun e => if e.1 == rule then (e.1, addToEntry e.2 tag) else e)
  | none => g ++ [(rule, addToEntry ⟨rule, 0, []⟩ tag)]

def bumpCount (c : List (String × Nat)) (rule : String) : List (String × Nat) :=
  match c.find? (fun e => e.1 == rule) with
  | some _ => c.map (fun e => if e.1 == rule then (e.1, e.2 + 1) else e)
  | none => c ++ [(rule, 1)]

def insertByCreatedDesc (t : Ticket) : List Ticket → List Ticket
  | [] => [t]
  | u :: us => if t.created_at ≥ u.created_at then t :: u :: us else u :: insertByCreatedDesc t us

/-- `order_by("-created_at")`. -/
def orderByCreatedDesc (ts : List Ticket) : List Ticket :=
  ts.foldr insertByCreatedDesc []

def insertByCountDesc (x : String × Nat) : List (String × Nat) → List (String × Nat)
  | [] => [x]
  | y :: ys => if x.2 > y.2 then x :: y :: ys else y :: insertByCountDesc x ys

/-- `sorted(counts.items(), key=count, reverse=True)`. -/
def sortByCountDesc (c : List (String × Nat)) : List (String × Nat) :=
  c.foldr insertByCountDesc []

/-- The datetime columns `metrics.models.RemediationTicket` declares
(`created_at` is the only one queryset date filters can name; the model has
`board, work_item, rule_code, message, status, created_at, resolved_at, meta`
and *no* `updated_at`).  Django resolves queryset keyword filters eagerly and
raises `FieldError` for an unknown name. -/
def resolveTicketDateField : String → Except String (Ticket → Int)
  | "created_at" => .ok Ticket.created_at
  | f => .error ("FieldError: cannot resolve keyword " ++ f ++ " into field")

/-- `notifier._collect_for_board`, ported in source order.  The recent-window
query unions `created_at__gte=since` with `updated_at__gte=since`; the second
filter must resolve `updated_at` on `RemediationTicket`. -/
def collect_for_board (tickets : TicketStore) (board : String)
    (channel : NotificationChannel) (window_minutes : Int) (now : Int) :
    Except String (List (String × GroupEntry)) :=
  let since := now - window_minutes * 60000000
  let open_qs := tickets.filter
    (fun t => t.board == board && t.status != RemediationStatus.DONE)
  match resolveTicketDateField "updated_at" with
  | .error e => .error e
  | .ok updAt =>
    let recent := orderByCreatedDesc
      (open_qs.filter (fun t => t.created_at ≥ since || updAt t ≥ since))
    let grouped := recent.foldl
      (fun (g : List (String × GroupEntry)) rt =>
        if !(should_include rt.rule_code channel) then g
        else updateGroup g rt.rule_code (rt.work_item.getD "n/a"))
      []
    if grouped.isEmpty then
      let counts := open_qs.foldl
        (fun (c : List (String × Nat)) rt =>
          if !(should_include rt.rule_code channel) then c else bumpCount c rt.rule_code)
        []
      .ok ((sortByCountDesc counts).take 5 |>.map
        (fun rc => (rc.1, { rule := rc.1, count := rc.2, samples := [] })))
    else .ok grouped

/-! # Theorems -/

/-! ## C5: `parse_timestamp` (`to_dt`) totality and format coverage -/

theorem minInstant_eq : minInstant = -62135596800000000 := by decide

theorem maxInstant_eq : maxInstant = 253402300799999999 := by decide

/-- **C5** `parse_timestamp` (`to_dt`) is total (it returns an `Option`, never
raising): a positive numeric epoch is interpreted as milliseconds when above
the magnitude threshold 10 000 000 000 and as seconds otherwise; `1699999999`
yields a 2023 instant and `1699999999000` the same instant;
`"2024-01-01T00:00:00+0000"` and `"2024-01-01T00:00:00Z"` yield identical
instants; empty string, null and unparseable input yield null. -/
theorem C5_to_dt_heuristics :
    (∀ i : Int, 0 < i → i ≤ 10000000000 → to_dt (J.n i) = some (i * 1000000)) ∧
    (∀ i : Int, 10000000000 < i → i * 1000 ≤ maxInstant → to_dt (J.n i) = some (i * 1000)) ∧
    to_dt (J.n 1699999999) = some 1699999999000000 ∧
    to_dt (J.n 1699999999000) = some 1699999999000000 ∧
    (epochUs 2023 1 1 0 0 0 0 ≤ 1699999999000000 ∧
      (1699999999000000 : Int) < epochUs 2024 1 1 0 0 0 0) ∧
    to_dt (J.s "2024-01-01T00:00:00+0000") = to_dt (J.s "2024-01-01T00:00:00Z") ∧
    to_dt (J.s "2024-01-01T00:00:00Z") = some (epochUs 2024 1 1 0 0 0 0) ∧
    to_dt (J.s "") = none ∧ to_dt J.null = none ∧ to_dt (J.s "not a date") = none := by
  refine ⟨?_, ?_, by decide, by decide, by decide, by decide, by decide, by decide, by decide,
    by decide⟩
  · intro i h0 hle
    have ht : (J.n i).truthy = true := by
      simp only [J.truthy, bne_iff_ne, ne_eq]
      omega
    have hms : ¬ i > 10000000000 := by omega
    have hrange : ¬ ((decide (i * 1000000 < minInstant)
        || decide (i * 1000000 > maxInstant)) = true) := by
      simp only [minInstant_eq, maxInstant_eq, Bool.or_eq_true, decide_eq_true_eq, not_or,
        not_lt]
      omega
    simp only [to_dt, ht, Bool.not_true, Bool.false_eq_true, if_false, if_neg hms,
      if_neg hrange]
  · intro i hgt hle
    have ht : (J.n i).truthy = true := by
      simp only [J.truthy, bne_iff_ne, ne_eq]
      omega
    rw [maxInstant_eq] at hle
    have hrange : ¬ ((decide (i * 1000 < minInstant)
        || decide (i * 1000 > maxInstant)) = true) := by
      simp only [minInstant_eq, maxInstant_eq, Bool.or_eq_true, decide_eq_true_eq, not_or,
        not_lt]
      omega
    simp only [to_dt, ht, Bool.not_true, Bool.false_eq_true, if_false, if_pos hgt,
      if_neg hrange]

/-- **C5 witness**: the universally quantified clauses at the concrete epochs
of the claim. -/
theorem C5_to_dt_heuristics_witness :
    to_dt (J.n 1699999999) = some (1699999999 * 1000000) ∧
    to_dt (J.n 1699999999000) = some (1699999999000 * 1000) :=
  ⟨C5_to_dt_heuristics.1 1699999999 (by decide) (by decide),
   C5_to_dt_heuristics.2.1 1699999999000 (by decide) (by decide)⟩

/-! ## C7: mapping-config validator -/

/-- An otherwise-valid config whose `jira` section lacks `status_map` entirely. -/
def cfgMissingStatusMap : J :=
  J.obj [("jira", J.obj [("points_field", J.s "customfield_10016")]),
         ("clickup", J.obj [("points_field_name", J.s "Story Points")]),
         ("azure", J.obj [("points_field", J.s "Microsoft.VSTS.Scheduling.StoryPoints")]),
         ("github", J.obj [("link_patterns", J.obj [])])]

/-- An otherwise-valid config whose `jira.status_map` covers 7 of the 9
canonical steps (missing `ready_for_uat` and `deployed_uat`). -/
def cfgSevenSteps : J :=
  J.obj [("jira", J.obj
           [("points_field", J.s "customfield_10016"),
            ("status_map", J.obj
              [("dev_started", J.arr [J.s "In Progress"]),
               ("dev_done", J.arr [J.s "Dev Done"]),
               ("ready_for_qa", J.arr [J.s "In Review"]),
               ("qa_started", J.arr [J.s "QA In Progress"]),
               ("qa_verified", J.arr [J.s "QA Verified"]),
               ("signed_off", J.arr [J.s "Signed Off"]),
               ("done", J.arr [J.s "Done"])])]),
         ("clickup", J.obj [("points_field_name", J.s "Story Points")]),
         ("azure", J.obj [("points_field", J.s "Microsoft.VSTS.Scheduling.StoryPoints")]),
         ("github", J.obj [("link_patterns", J.obj [("jira", J.s "([A-Z]+-[0-9]+)")])])]

/-- **C7** `validate_mapping_config` returns `ok = true` iff its error list is
empty (warnings never affect `ok`); a config missing `jira.status_map` gets
exactly one error, at path `jira.status_map`, with `ok = false`; a config
covering 7 of the 9 canonical steps gets exactly two warnings (one per missing
step), zero errors, and `ok = true`. -/
theorem C7_validate_mapping_config :
    (∀ c : J, (validate_mapping_config c).ok = (validate_mapping_config c).errors.isEmpty) ∧
    ((validate_mapping_config cfgMissingStatusMap).errors.map PathMsg.path
        = ["jira.status_map"] ∧
      (validate_mapping_config cfgMissingStatusMap).ok = false) ∧
    ((validate_mapping_config cfgSevenSteps).errors = [] ∧
      (validate_mapping_config cfgSevenSteps).warnings.map PathMsg.path
        = ["jira.status_map.ready_for_uat", "jira.status_map.deployed_uat"] ∧
      (validate_mapping_config cfgSevenSteps).ok = true) :=
  ⟨fun _ => rfl, ⟨by decide, by decide⟩, ⟨by decide, by decide, by decide⟩⟩

/-- **C7 witness**: the universally quantified `ok`-iff-no-errors clause at the
two concrete configs. -/
theorem C7_validate_mapping_config_witness :
    (validate_mapping_config cfgMissingStatusMap).ok
        = (validate_mapping_config cfgMissingStatusMap).errors.isEmpty ∧
    (validate_mapping_config cfgSevenSteps).ok
        = (validate_mapping_config cfgSevenSteps).errors.isEmpty :=
  ⟨C7_validate_mapping_config.1 cfgMissingStatusMap,
   C7_validate_mapping_config.1 cfgSevenSteps⟩

/-! ## C9: notification grouping -/

/-- **C9** (code bug): `_collect_for_board` never returns a grouping at all:
its recent-window query filters on `updated_at__gte`, but
`metrics.models.RemediationTicket` declares no `updated_at` field, so Django
raises `FieldError` on every invocation, whatever the board, channel, window
or ticket table. -/
theorem C9_collect_for_board_always_raises :
    ∀ (tickets : TicketStore) (board : String) (channel : NotificationChannel)
      (window_minutes now : Int),
      collect_for_board tickets board channel window_minutes now =
        Except.error "FieldError: cannot resolve keyword updated_at into field" :=
  fun _ _ _ _ _ => rfl

/-- **C9 evaluation at a concrete failing input**: a board with one open
ticket inside the window still raises. -/
theorem C9_collect_for_board_failing_input :
    collect_for_board
        [{ board := "B1", work_item := some "PROJ-1", rule_code := "MISSING_POINTS",
           message := "Story points are required", status := RemediationStatus.OPEN,
           created_at := 90, resolved_at := none, meta := J.obj [] }]
        "B1" ⟨[]⟩ 60 100 =
      Except.error "FieldError: cannot resolve keyword updated_at into field" :=
  rfl

/-! ## C6: SLA limit precedence -/

/-- A JSON object with integer values, the shape of `sla.by_priority` /
`sla.by_type` maps. -/
def jIntMap (m : List (String × Int)) : J :=
  J.obj (m.map (fun kv => (kv.1, J.n kv.2)))

theorem head?_filterMap_ite {α β : Type} (l : List α) (p : α → Bool) (f : α → β) :
    (l.filterMap (fun x => if p x then some (f x) else none)).head? = (l.find? p).map f := by
  induction l with
  | nil => rfl
  | cons a t ih =>
    by_cases h : p a
    · simp [List.filterMap_cons, List.find?_cons, h]
    · simp [List.filterMap_cons, List.find?_cons, h, ih]

theorem lowerFold_eq (m : List (String × J)) : ∀ (acc : List (String × J)),
    ((m.map (fun kv => pyLower kv.1)).Nodup) →
    (∀ kv ∈ m, ∀ e ∈ acc, e.1 ≠ pyLower kv.1) →
    m.foldl
      (fun acc kv =>
        if acc.any (fun e => e.1 == pyLower kv.1) then
          acc.map (fun e => if e.1 == pyLower kv.1 then (e.1, kv.2) else e)
        else acc ++ [(pyLower kv.1, kv.2)]) acc
      = acc ++ m.map (fun kv => (pyLower kv.1, kv.2)) := by
  induction m with
  | nil => intro acc _ _; simp
  | cons a t ih =>
    intro acc hnd hdisj
    have hnotany : (acc.any (fun e => e.1 == pyLower a.1)) = false := by
      rw [List.any_eq_false]
      intro e he
      simpa using hdisj a (by simp) e he
    rw [List.map_cons, List.nodup_cons] at hnd
    obtain ⟨hhead, htail⟩ := hnd
    rw [List.foldl_cons, hnotany]
    simp only [Bool.false_eq_true, if_false]
    rw [ih (acc ++ [(pyLower a.1, a.2)]) htail]
    · simp
    · intro kv hkv e he
      rcases List.mem_append.mp he with he | he
      · exact hdisj kv (List.mem_cons_of_mem _ hkv) e he
      · have he2 : e = (pyLower a.1, a.2) := by simpa using he
        subst he2
        simp only [List.mem_map] at hhead
        intro hcontra
        exact hhead ⟨kv, hkv, hcontra.symm⟩

theorem lowerKeysLastWins_eq_of_nodup (m : List (String × J))
    (h : (m.map (fun kv => pyLower kv.1)).Nodup) :
    lowerKeysLastWins m = m.map (fun kv => (pyLower kv.1, kv.2)) := by
  have := lowerFold_eq m [] h (by intro kv _ e he; simp at he)
  simpa [lowerKeysLastWins] using this

theorem lookupAssoc_map_lower (m : List (String × J)) (t : String) :
    lookupAssoc (m.map (fun kv => (pyLower kv.1, kv.2))) t
      = (m.find? (fun kv => pyLower kv.1 == t)).map (·.2) := by
  induction m with
  | nil => rfl
  | cons a tl ih =>
    rcases hEq : (pyLower a.1 == t) with _ | _
    · unfold lookupAssoc at ih ⊢
      rw [List.map_cons, List.find?_cons_of_neg _ (by simp [hEq]),
        List.find?_cons_of_neg _ (by simp [hEq])]
      exact ih
    · unfold lookupAssoc
      rw [List.map_cons, List.find?_cons_of_pos _ (by simp [hEq]),
        List.find?_cons_of_pos _ (by simp [hEq])]
      rfl

/-- **C6** the SLA limit is resolved by precedence priority-override, then
type-override, then global default: `_hours_for_item` agrees with the
specification's precedence (`sla_spec_limit`) for every work item whose meta
carries a trimmed non-empty priority, over any non-empty configured maps whose
type keys are unambiguous after lowercasing; and in particular an item with
`meta.priority="P1"` mapped to 4 in `by_priority`, type `bug` mapped to 24 in
`by_type`, and global default 48 resolves to 4 (priority wins). -/
theorem C6_sla_precedence :
    (∀ (pm tm : List (String × Int)) (d : Int) (p ity : String) (wi : WorkItemRow),
      pm ≠ [] → tm ≠ [] → pyStrip p = p → p ≠ "" →
      ((tm.map (fun kv => pyLower kv.1)).Nodup) →
      wi.meta = J.obj [("priority", J.s p)] → wi.item_type = ity →
      hours_for_item
          (J.obj [("by_priority", jIntMap pm), ("by_type", jIntMap tm),
                  ("blocked_hours", J.n d)])
          (J.obj [])
          wi
        = sla_spec_limit pm tm d p ity) ∧
    hours_for_item
        (J.obj [("by_priority", J.obj [("P1", J.n 4)]),
                ("by_type", J.obj [("bug", J.n 24)]), ("blocked_hours", J.n 48)])
        (J.obj [])
        { newRow Source.JIRA "X-1" with meta := J.obj [("priority", J.s "P1")],
                                        item_type := ItemType.BUG }
      = 4 := by
  constructor
  · intro pm tm d p ity wi hpm htm hstrip hp hnd hmeta hity
    obtain ⟨a, pm', rfl⟩ := List.exists_cons_of_ne_nil hpm
    obtain ⟨b, tm', rfl⟩ := List.exists_cons_of_ne_nil htm
    have htr : (J.s p).truthy = true := by simp [J.truthy, hp]
    have hpe : (p == "") = false := by simp [hp]
    have hpick : (((a :: pm').map (fun kv => (kv.1, J.n kv.2))).filterMap (fun kv =>
        if pyLower p == pyLower kv.1 then kv.2.pyInt? else none)).head?
        = ((a :: pm').find? (fun kv => pyLower p == pyLower kv.1)).map (·.2) := by
      rw [List.filterMap_map]
      have hc : ((fun kv => if pyLower p == pyLower kv.1 then kv.2.pyInt? else none) ∘
          (fun kv : String × Int => (kv.1, J.n kv.2))) = (fun kv : String × Int =>
            if pyLower p == pyLower kv.1 then some kv.2 else none) := by
        funext kv; rfl
      rw [hc]
      exact head?_filterMap_ite _ _ _
    have hnd2 : ((((b :: tm').map (fun kv => (kv.1, J.n kv.2))).map
        (fun kv => pyLower kv.1)).Nodup) := by
      rw [List.map_map]
      exact hnd
    have htype : lookupAssoc
          (lowerKeysLastWins ((b :: tm').map (fun kv => (kv.1, J.n kv.2)))) (pyLower ity)
        = ((b :: tm').find? (fun kv => pyLower kv.1 == pyLower ity)).map
            (fun kv => J.n kv.2) := by
      rw [lowerKeysLastWins_eq_of_nodup _ hnd2, lookupAssoc_map_lower, List.find?_map]
      have hc : ((fun kv => pyLower kv.1 == pyLower ity) ∘
          (fun kv : String × Int => (kv.1, J.n kv.2)))
          = fun kv : String × Int => pyLower kv.1 == pyLower ity := by
        funext kv; rfl
      rw [hc, Option.map_map]
      rfl
    simp only [List.map_cons, List.find?_cons] at hpick htype
    unfold hours_for_item sla_spec_limit
    rw [hmeta, hity]
    simp only [J.get, J.pyOr, J.truthy, J.orString, J.pyStr, J.asObj, J.getD, jIntMap,
      String.reduceBEq, List.find?_cons, List.find?_nil, List.map_cons, List.isEmpty_cons,
      Bool.not_false, Bool.not_true, bne, htr, hstrip, hpe, if_true, if_false,
      Bool.false_eq_true, Bool.true_eq_false]
    rw [hpick, htype]
    rcases h1 : (pyLower p == pyLower a.1) with _ | _ <;>
    rcases hf1 : List.find? (fun kv => pyLower p == pyLower kv.1) pm' with _ | kv1 <;>
    rcases h2 : (pyLower b.1 == pyLower ity) with _ | _ <;>
    rcases hf2 : List.find? (fun kv => pyLower kv.1 == pyLower ity) tm' with _ | kv2 <;>
    simp [h1, hf1, h2, hf2, J.pyInt?]
  · decide

/-- **C6 witness**: the general precedence clause applied at the claim's
concrete scenario. -/
theorem C6_sla_precedence_witness :
    hours_for_item
        (J.obj [("by_priority", jIntMap [("P1", 4)]), ("by_type", jIntMap [("bug", 24)]),
                ("blocked_hours", J.n 48)])
        (J.obj [])
        { newRow Source.JIRA "X-1" with meta := J.obj [("priority", J.s "P1")],
                                        item_type := ItemType.BUG }
      = sla_spec_limit [("P1", 4)] [("bug", 24)] 48 "P1" "bug" ∧
    sla_spec_limit [("P1", 4)] [("bug", 24)] 48 "P1" "bug" = 4 :=
  ⟨C6_sla_precedence.1 [("P1", 4)] [("bug", 24)] 48 "P1" "bug"
      { newRow Source.JIRA "X-1" with meta := J.obj [("priority", J.s "P1")],
                                      item_type := ItemType.BUG }
      (by decide) (by decide) (by decide) (by decide) (by decide) rfl rfl,
   by decide⟩

/-! ## C4: Jira changelog step timestamps -/

theorem earliest_eq_some_iff {l : List Int} {t : Int} :
    earliest l = some t ↔ t ∈ l ∧ ∀ u ∈ l, t ≤ u := by
  unfold earliest
  have anti : Std.Antisymm (fun x1 x2 : Int => x1 ≤ x2) := ⟨@fun _ _ h h2 => le_antisymm h h2⟩
  exact List.min?_eq_some_iff (fun a => le_refl a) (fun a b => min_choice a b)
    (fun a b c => le_min_iff)

/-- The C4 scenario's active mapping config:
`status_map.dev_started = ["In Progress"]`, `status_map.ready_for_qa = ["In Review"]`. -/
def jiraNormC4 : JiraNormalizer :=
  JiraNormalizer.init "B" none
    (J.obj [("jira", J.obj [("status_map",
      J.obj [("dev_started", J.arr [J.s "In Progress"]),
             ("ready_for_qa", J.arr [J.s "In Review"])])])])

/-- The C4 scenario's issue: changelog transitions to "In Progress" at
2024-01-02T10:00:00Z and to "in review" (case differs) at 2024-01-03T10:00:00Z. -/
def rpC4 : RawPayload :=
  { source := Source.JIRA, object_type := "issue",
    payload := J.obj
      [("key", J.s "PROJ-1"),
       ("fields", J.obj
         [("summary", J.s "A story"),
          ("issuetype", J.obj [("name", J.s "Story")]),
          ("status", J.obj [("name", J.s "In Review")]),
          ("created", J.s "2024-01-01T00:00:00Z")]),
       ("changelog", J.obj [("histories", J.arr
         [J.obj [("created", J.s "2024-01-02T10:00:00Z"),
                 ("items", J.arr [J.obj [("field", J.s "status"),
                                         ("toString", J.s "In Progress")]])],
          J.obj [("created", J.s "2024-01-03T10:00:00Z"),
                 ("items", J.arr [J.obj [("field", J.s "status"),
                                         ("toString", J.s "in review")]])]])])] }

/-- **C4** each canonical step timestamp is the *earliest* changelog entry time
whose status-field transition target (case-insensitively) is in the step's
configured list: `_status_time` returns `some t` exactly when `t` is a matching
changelog hit no later than every other matching hit; and the concrete scenario
(changelog to "In Progress" at T1, "In Review" at T2, T1 < T2) normalizes to
`dev_started_at = T1` and `ready_for_qa_at = T2`. -/
theorem C4_status_time_earliest :
    (∀ (issue : J) (targets : List String) (t : Int),
      status_time issue targets = some t ↔
        t ∈ status_hits issue targets ∧ ∀ u ∈ status_hits issue targets, t ≤ u) ∧
    ((jiraNormC4.normalizeOne 0 [] rpC4).1.map
        (fun e => (e.1, e.2.dev_started_at, e.2.ready_for_qa_at)))
      = [((Source.JIRA, "PROJ-1"), some (epochUs 2024 1 2 10 0 0 0),
          some (epochUs 2024 1 3 10 0 0 0))] :=
  ⟨fun _ _ _ => earliest_eq_some_iff, by decide⟩

/-- **C4 witness**: the characterization applied to the scenario issue and the
`dev_started` target list. -/
theorem C4_status_time_earliest_witness :
    epochUs 2024 1 2 10 0 0 0 ∈ status_hits rpC4.payload ["in progress"] ∧
    ∀ u ∈ status_hits rpC4.payload ["in progress"], epochUs 2024 1 2 10 0 0 0 ≤ u :=
  (C4_status_time_earliest.1 rpC4.payload ["in progress"]
    (epochUs 2024 1 2 10 0 0 0)).mp (by decide)

/-! ## C8: GitHub PR first-review timestamp and reviewer set -/

theorem to_dt_of_not_truthy {v : J} (h : v.truthy = false) : to_dt v = none := by
  simp [to_dt, h]

theorem pr_review_scan_foldl_snd (reviews : List J) :
    ∀ (acc : List J × Option Int),
      (reviews.foldl
        (fun (acc : List J × Option Int) r =>
          let rid := ((r.get "user").pyOr (J.obj [])).get "login"
          let reviewers := if rid.truthy && !acc.1.contains rid then acc.1 ++ [rid] else acc.1
          let first_reviewed_at :=
            if (r.get "submitted_at").truthy && acc.2.isNone then to_dt (r.get "submitted_at")
            else acc.2
          (reviewers, first_reviewed_at)) acc).2
        = (acc.2 <|> (reviews.filterMap (fun r => to_dt (r.get "submitted_at"))).head?) := by
  induction reviews with
  | nil =>
    intro acc
    rcases hacc : acc.2 with _ | v <;> simp [hacc]
  | cons r rest ih =>
    intro acc
    rw [List.foldl_cons, ih, List.filterMap_cons]
    rcases hacc : acc.2 with _ | v
    · rcases htr : (r.get "submitted_at").truthy with _ | _
      · rw [to_dt_of_not_truthy htr]
        simp [hacc, htr]
      · rcases hto : to_dt (r.get "submitted_at") with _ | t <;>
          simp [hacc, htr, hto]
    · simp [hacc]

theorem pr_review_scan_foldl_fst (reviews : List J) :
    ∀ (acc : List J × Option Int),
      (reviews.foldl
        (fun (acc : List J × Option Int) r =>
          let rid := ((r.get "user").pyOr (J.obj [])).get "login"
          let reviewers := if rid.truthy && !acc.1.contains rid then acc.1 ++ [rid] else acc.1
          let first_reviewed_at :=
            if (r.get "submitted_at").truthy && acc.2.isNone then to_dt (r.get "submitted_at")
            else acc.2
          (reviewers, first_reviewed_at)) acc).1
        = (reviews.filterMap spec_reviewer_id).foldl
            (fun acc x => if acc.contains x then acc else acc ++ [x]) acc.1 := by
  induction reviews with
  | nil => intro acc; rfl
  | cons r rest ih =>
    intro acc
    rw [List.foldl_cons, ih, List.filterMap_cons]
    unfold spec_reviewer_id
    rcases htr : (((r.get "user").pyOr (J.obj [])).get "login").truthy with _ | _
    · simp [htr]
    · rcases hc : acc.1.contains (((r.get "user").pyOr (J.obj [])).get "login") with _ | _ <;>
        simp [htr, hc]

/-- **C8 (amended)**: for every raw PR record that normalizes, the PR row's
first-review timestamp is the *first* (in review-list order) parseable
`submitted_at` among the review records — not the minimum — and the reviewer
set is the ordered-unique list of truthy reviewer logins in review order. -/
theorem C8_first_review_and_reviewers :
    ∀ (rp : RawPayload) (row : PRRow), githubNormalizePR rp = some row →
      row.first_reviewed_at
          = (((((rp.payload.pyOr (J.obj [])).get "reviews").pyOr (J.arr [])).asList).filterMap
              (fun r => to_dt (r.get "submitted_at"))).head? ∧
      row.reviewer_ids = spec_ordered_unique
        (((((rp.payload.pyOr (J.obj [])).get "reviews").pyOr (J.arr [])).asList).filterMap
          spec_reviewer_id) := by
  intro rp row h
  unfold githubNormalizePR at h
  split at h
  · exact absurd h (by simp)
  · dsimp only at h
    split at h
    · exact absurd h (by simp)
    · rw [Option.some.injEq] at h
      subst h
      constructor
      · exact pr_review_scan_foldl_snd _ ([], none)
      · exact pr_review_scan_foldl_fst _ ([], none)

/-- A GitHub PR record whose reviews arrive out of chronological order: the
second-listed review was submitted first. -/
def rpC8 : RawPayload :=
  { source := Source.GITHUB, object_type := "pr",
    payload := J.obj
      [("repo", J.obj [("owner", J.s "acme"), ("name", J.s "app")]),
       ("pr", J.obj [("number", J.n 7), ("title", J.s "Fix PROJ-9"),
                     ("created_at", J.s "2023-12-31T00:00:00Z"),
                     ("user", J.obj [("login", J.s "carol")])]),
       ("reviews", J.arr
         [J.obj [("user", J.obj [("login", J.s "bob")]),
                 ("submitted_at", J.s "2024-01-02T00:00:00Z")],
          J.obj [("user", J.obj [("login", J.s "alice")]),
                 ("submitted_at", J.s "2024-01-01T00:00:00Z")]])] }

/-- **C8 counterexample**: with reviews listed out of order, the normalized
PR's first-review timestamp is the first-listed review's `submitted_at`
(2024-01-02), not the minimum over all reviews (2024-01-01) as claimed. -/
theorem C8_counterexample_not_minimum :
    (githubNormalizePR rpC8).map PRRow.first_reviewed_at
        = some (some (epochUs 2024 1 2 0 0 0 0)) ∧
    spec_first_review ((((rpC8.payload.pyOr (J.obj [])).get "reviews").pyOr (J.arr [])).asList)
        = some (epochUs 2024 1 1 0 0 0 0) ∧
    (epochUs 2024 1 2 0 0 0 0 : Int) ≠ epochUs 2024 1 1 0 0 0 0 := by
  refine ⟨by decide, by decide, by decide⟩

/-! ## C1 and C10: `open_ticket` idempotency and frame effects -/

theorem applyOpenUpdate_fields (m : String) (meta : J) (t : Ticket) :
    (applyOpenUpdate m meta t).board = t.board ∧
    (applyOpenUpdate m meta t).work_item = t.work_item ∧
    (applyOpenUpdate m meta t).rule_code = t.rule_code ∧
    (applyOpenUpdate m meta t).status = t.status := by
  unfold applyOpenUpdate
  dsimp only
  rcases h1 : (t.message != m) with _ | _
  · simp only [h1, Bool.false_eq_true, if_false]
    refine ⟨?_, ?_, ?_, ?_⟩ <;> (split <;> split <;> rfl)
  · simp only [h1, if_true]
    refine ⟨?_, ?_, ?_, ?_⟩ <;> (split <;> split <;> rfl)

theorem isNonDoneFor_applyOpenUpdate (b : String) (wi : Option String) (rc m : String)
    (meta : J) (t : Ticket) :
    isNonDoneFor b wi rc (applyOpenUpdate m meta t) = isNonDoneFor b wi rc t := by
  obtain ⟨hb, hw, hr, hs⟩ := applyOpenUpdate_fields m meta t
  unfold isNonDoneFor
  rw [hb, hw, hr, hs]

theorem applyOpenUpdate_message (m : String) (meta : J) (t : Ticket) :
    (applyOpenUpdate m meta t).message = m := by
  unfold applyOpenUpdate
  dsimp only
  rcases h1 : (t.message != m) with _ | _
  · have h2 : t.message = m := by simpa [bne] using h1
    simp only [h1, Bool.false_eq_true, if_false]
    split <;> split <;> simpa using h2
  · simp only [h1, if_true]
    split <;> split <;> rfl

theorem countP_updateFirstWhere (p : Ticket → Bool) (f : Ticket → Ticket)
    (hf : ∀ t, p (f t) = p t) (store : TicketStore) :
    (updateFirstWhere p f store).countP p = store.countP p := by
  induction store with
  | nil => rfl
  | cons t ts ih =>
    unfold updateFirstWhere
    rcases hp : p t with _ | _
    · simp only [Bool.false_eq_true, if_false, List.countP_cons, hp, ih]
    · simp only [if_true, List.countP_cons, hp, hf t]

theorem find?_updateFirstWhere (p : Ticket → Bool) (f : Ticket → Ticket)
    (hf : ∀ t, p (f t) = p t) (store : TicketStore) :
    (updateFirstWhere p f store).find? p = (store.find? p).map f := by
  induction store with
  | nil => rfl
  | cons t ts ih =>
    unfold updateFirstWhere
    rcases hp : p t with _ | _
    · rw [if_neg (by simp [hp]), List.find?_cons_of_neg _ (by simp [hp]),
        List.find?_cons_of_neg _ (by simp [hp]), ih]
    · rw [if_pos (by simp [hp]), List.find?_cons_of_pos _ (by simp [hp, hf t]),
        List.find?_cons_of_pos _ (by simp [hp])]
      rfl

theorem open_ticket_step (b : String) (wi : Option String) (rc m : String) (meta : J)
    (now : Int) (store : TicketStore)
    (h : store.countP (isNonDoneFor b wi rc) ≤ 1) :
    ((open_ticket b wi rc m meta now store).2.countP (isNonDoneFor b wi rc)) = 1 ∧
    (((open_ticket b wi rc m meta now store).2.find? (isNonDoneFor b wi rc)).map
      Ticket.message) = some m := by
  unfold open_ticket
  dsimp only
  rcases hf : store.find? (isNonDoneFor b wi rc) with _ | rt
  · have hzero : store.countP (isNonDoneFor b wi rc) = 0 :=
      List.countP_eq_zero.mpr (List.find?_eq_none.mp hf)
    have hnew : isNonDoneFor b wi rc
        { board := b, work_item := wi, rule_code := rc, message := m,
          meta := if meta.truthy then meta else J.obj [],
          status := RemediationStatus.OPEN, created_at := now, resolved_at := none } = true := by
      simp [isNonDoneFor, RemediationStatus.OPEN, RemediationStatus.DONE]
    constructor
    · rw [List.countP_cons, hzero]
      simp [hnew]
    · rw [List.find?_cons_of_pos _ hnew]
      rfl
  · have hprt : isNonDoneFor b wi rc rt = true := List.find?_some hf
    have hmem : rt ∈ store := List.mem_of_find?_eq_some hf
    have hpos : 0 < store.countP (isNonDoneFor b wi rc) :=
      List.countP_pos_iff.mpr ⟨rt, hmem, hprt⟩
    constructor
    · rw [countP_updateFirstWhere _ _ (fun t => isNonDoneFor_applyOpenUpdate b wi rc m _ t)]
      omega
    · rw [find?_updateFirstWhere _ _ (fun t => isNonDoneFor_applyOpenUpdate b wi rc m _ t),
        hf]
      simp [applyOpenUpdate_message]

/-- One `open_ticket` invocation's arguments: the message, meta and clock of
the call. -/
structure OpenCall where
  message : String
  meta : J
  now : Int

/-- N successive `open_ticket` calls for the same `(board, work_item,
rule_code)` key with varying messages/metas. -/
def open_ticket_runs (b : String) (wi : Option String) (rc : String)
    (calls : List OpenCall) (store : TicketStore) : TicketStore :=
  calls.foldl (fun st c => (open_ticket b wi rc c.message c.meta c.now st).2) store

/-- **C1** from any table with at most one non-done ticket for the key,
any run of `open_ticket` calls for that key leaves at most one non-done ticket
for the key; at least one call leaves *exactly one*, and its message is the
last call's message — no duplicate non-done ticket is ever created. -/
theorem C1_open_ticket_no_duplicates (b : String) (wi : Option String) (rc : String)
    (calls : List OpenCall) (store : TicketStore)
    (h : store.countP (isNonDoneFor b wi rc) ≤ 1) :
    (open_ticket_runs b wi rc calls store).countP (isNonDoneFor b wi rc) ≤ 1 ∧
    (calls ≠ [] →
      (open_ticket_runs b wi rc calls store).countP (isNonDoneFor b wi rc) = 1 ∧
      ((open_ticket_runs b wi rc calls store).find? (isNonDoneFor b wi rc)).map Ticket.message
        = calls.getLast?.map OpenCall.message) := by
  induction calls generalizing store with
  | nil => exact ⟨h, fun hne => absurd rfl hne⟩
  | cons c cs ih =>
    have hstep := open_ticket_step b wi rc c.message c.meta c.now store h
    have hrun : open_ticket_runs b wi rc (c :: cs) store
        = open_ticket_runs b wi rc cs (open_ticket b wi rc c.message c.meta c.now store).2 :=
      rfl
    rcases cs with _ | ⟨c2, cs'⟩
    · rw [hrun]
      exact ⟨le_of_eq hstep.1, fun _ => ⟨hstep.1, hstep.2⟩⟩
    · have ih2 := ih (open_ticket b wi rc c.message c.meta c.now store).2 (le_of_eq hstep.1)
      rw [hrun]
      refine ⟨ih2.1, fun _ => ?_⟩
      obtain ⟨hcount, hmsg⟩ := ih2.2 (by simp)
      exact ⟨hcount, by rw [hmsg, List.getLast?_cons_cons]⟩

/-- **C1 witness**: two calls with different messages starting from an empty
table leave exactly one non-done ticket, carrying the second message. -/
theorem C1_open_ticket_no_duplicates_witness :
    (open_ticket_runs "B" (some "PROJ-1") "MISSING_POINTS"
        [⟨"first message", J.obj [], 10⟩, ⟨"second message", J.obj [], 20⟩] []).countP
        (isNonDoneFor "B" (some "PROJ-1") "MISSING_POINTS") = 1 ∧
    ((open_ticket_runs "B" (some "PROJ-1") "MISSING_POINTS"
        [⟨"first message", J.obj [], 10⟩, ⟨"second message", J.obj [], 20⟩] []).find?
        (isNonDoneFor "B" (some "PROJ-1") "MISSING_POINTS")).map Ticket.message
      = some "second message" := by
  have h := C1_open_ticket_no_duplicates "B" (some "PROJ-1") "MISSING_POINTS"
    [⟨"first message", J.obj [], 10⟩, ⟨"second message", J.obj [], 20⟩] [] (by decide)
  obtain ⟨hc, hm⟩ := h.2 (by simp)
  exact ⟨hc, by rw [hm]; rfl⟩

/-- **C10** calling `open_ticket` with an empty (or absent, hence falsy) meta
on a key that already has a non-done ticket only rewrites that ticket's
message: the stored meta — and every other field and every other ticket — is
left unchanged. -/
theorem C10_open_ticket_empty_meta_frame (b : String) (wi : Option String) (rc m : String)
    (meta : J) (now : Int) (store : TicketStore) (t : Ticket)
    (hmeta : meta.truthy = false)
    (hfound : store.find? (isNonDoneFor b wi rc) = some t) :
    (open_ticket b wi rc m meta now store).2
        = updateFirstWhere (isNonDoneFor b wi rc)
            (fun u => if u.message != m then { u with message := m } else u) store ∧
    ((open_ticket b wi rc m meta now store).2.find? (isNonDoneFor b wi rc))
        = some (if t.message != m then { t with message := m } else t) := by
  have hmeta' : (if meta.truthy then meta else J.obj []) = J.obj [] := by
    rw [hmeta]
    rfl
  have happ : applyOpenUpdate m (J.obj []) =
      fun u => if u.message != m then { u with message := m } else u := by
    funext u
    rfl
  have heq : (open_ticket b wi rc m meta now store).2
      = updateFirstWhere (isNonDoneFor b wi rc)
          (fun u => if u.message != m then { u with message := m } else u) store := by
    unfold open_ticket
    dsimp only
    rw [hmeta', hfound, happ]
  refine ⟨heq, ?_⟩
  rw [heq]
  have hpres : ∀ u, isNonDoneFor b wi rc
      (if u.message != m then { u with message := m } else u) = isNonDoneFor b wi rc u := by
    intro u
    split <;> rfl
  rw [find?_updateFirstWhere _ _ hpres, hfound]
  rfl

/-- The C10 witness's pre-existing open ticket, carrying a non-empty meta. -/
def ticketC10 : Ticket :=
  { board := "B", work_item := some "PROJ-1", rule_code := "BLOCKED_SLA",
    message := "old message", status := RemediationStatus.OPEN, created_at := 10,
    resolved_at := none, meta := J.obj [("sla_hours", J.n 4)] }

/-- **C10 witness**: a ticket with a non-empty stored meta keeps it when
`open_ticket` is called with empty meta; only the message changes. -/
theorem C10_open_ticket_empty_meta_frame_witness :
    (open_ticket "B" (some "PROJ-1") "BLOCKED_SLA" "new message" (J.obj []) 50
        [ticketC10]).2
      = updateFirstWhere (isNonDoneFor "B" (some "PROJ-1") "BLOCKED_SLA")
          (fun u => if u.message != "new message" then { u with message := "new message" }
                    else u)
          [ticketC10] ∧
    ((open_ticket "B" (some "PROJ-1") "BLOCKED_SLA" "new message" (J.obj []) 50
        [ticketC10]).2.find? (isNonDoneFor "B" (some "PROJ-1") "BLOCKED_SLA"))
      = some (if ticketC10.message != "new message"
              then { ticketC10 with message := "new message" } else ticketC10) :=
  C10_open_ticket_empty_meta_frame "B" (some "PROJ-1") "BLOCKED_SLA" "new message"
    (J.obj []) 50 [ticketC10] ticketC10 rfl rfl

/-! ## Store lemmas for C2 and C3 -/

theorem findRow_setRow_self (st : Store) (k : Key) (r : WorkItemRow) :
    findRow (setRow st k r) k = some r := by
  induction st with
  | nil => simp [setRow, findRow]
  | cons e es ih =>
    unfold setRow
    rcases he : (e.1 == k) with _ | _
    · simp only [Bool.false_eq_true, if_false]
      unfold findRow at ih ⊢
      rw [List.find?_cons_of_neg _ (by simp [he])]
      exact ih
    · simp only [if_true]
      unfold findRow
      rw [List.find?_cons_of_pos _ (by simp)]
      rfl

theorem findRow_setRow_other (st : Store) (k k' : Key) (r : WorkItemRow) (h : k' ≠ k) :
    findRow (setRow st k r) k' = findRow st k' := by
  induction st with
  | nil =>
    simp only [setRow, findRow, List.find?_nil]
    rw [List.find?_cons_of_neg _ (by simp [Ne.symm h]), List.find?_nil]
  | cons e es ih =>
    unfold setRow
    rcases he : (e.1 == k) with _ | _
    · simp only [Bool.false_eq_true, if_false]
      unfold findRow at ih ⊢
      rcases he' : (e.1 == k') with _ | _
      · rw [List.find?_cons_of_neg _ (by simp [he']), List.find?_cons_of_neg _ (by simp [he'])]
        exact ih
      · rw [List.find?_cons_of_pos _ (by simp [he']), List.find?_cons_of_pos _ (by simp [he'])]
    · simp only [if_true]
      have hek : e.1 = k := by simpa using he
      unfold findRow
      rw [List.find?_cons_of_neg _ (by simp [Ne.symm h]),
        List.find?_cons_of_neg _ (by simp [hek, Ne.symm h])]

theorem map_fst_setRow (st : Store) (k : Key) (r : WorkItemRow) :
    (setRow st k r).map Prod.fst
      = if (st.map Prod.fst).contains k then st.map Prod.fst else st.map Prod.fst ++ [k] := by
  induction st with
  | nil => simp [setRow]
  | cons e es ih =>
    unfold setRow
    rcases he : (e.1 == k) with _ | _
    · simp only [Bool.false_eq_true, if_false, List.map_cons, List.contains_cons]
      rw [ih]
      have : (k == e.1) = false := by
        rcases hq : (k == e.1) with _ | _
        · rfl
        · exact absurd (by simpa using (eq_of_beq hq).symm) (by simpa using he)
      rw [this]
      rcases hc : (es.map Prod.fst).contains k with _ | _ <;> simp
    · have hek : e.1 = k := by simpa using he
      simp [List.contains_cons, hek]

theorem nodup_fst_setRow (st : Store) (k : Key) (r : WorkItemRow)
    (h : (st.map Prod.fst).Nodup) : ((setRow st k r).map Prod.fst).Nodup := by
  rw [map_fst_setRow]
  rcases hc : (st.map Prod.fst).contains k with _ | _
  · simp only [Bool.false_eq_true, if_false]
    refine List.Nodup.append h (by simp) ?_
    intro a ha hb
    have hb2 : a = k := by simpa using hb
    subst hb2
    exact absurd ha (by simpa using hc)
  · simpa using h

theorem countKey_setRow_self (st : Store) (k : Key) (r : WorkItemRow)
    (h : (st.map Prod.fst).Nodup) :
    (setRow st k r).countP (fun e => e.1 == k) = 1 := by
  induction st with
  | nil => simp [setRow, List.countP_cons]
  | cons e es ih =>
    unfold setRow
    rw [List.map_cons, List.nodup_cons] at h
    rcases he : (e.1 == k) with _ | _
    · simp only [Bool.false_eq_true, if_false]
      rw [List.countP_cons, ih h.2]
      simp [he]
    · have hek : e.1 = k := by simpa using he
      have hzero : es.countP (fun x => x.1 == k) = 0 := by
        apply List.countP_eq_zero.mpr
        intro x hx
        simp only [beq_iff_eq]
        intro hxk
        apply h.1
        rw [hek]
        exact hxk ▸ List.mem_map_of_mem Prod.fst hx
      simp only [if_true]
      rw [List.countP_cons, hzero]
      simp

theorem upsert_parent_fst (st : Store) (board source : String) (pk : J) :
    (upsert_parent st board source pk).1
      = if pk.truthy then some (source, pk.pyStr) else none := by
  unfold upsert_parent
  rcases ht : pk.truthy with _ | _
  · simp [ht]
  · simp only [ht, Bool.not_true, Bool.false_eq_true, if_false, if_true]
    split <;> rfl

theorem findRow_upsert_parent_of_some (st : Store) (board source : String) (pk : J)
    (k : Key) (r : WorkItemRow) (h : findRow st k = some r) :
    findRow (upsert_parent st board source pk).2 k = some r := by
  unfold upsert_parent
  rcases ht : pk.truthy with _ | _
  · simpa [ht] using h
  · simp only [ht, Bool.not_true, Bool.false_eq_true, if_false]
    rcases hp : findRow st (source, pk.pyStr) with _ | rp
    · simp only [hp]
      by_cases hk : k = (source, pk.pyStr)
      · rw [hk] at h
        rw [h] at hp
        exact absurd hp (by simp)
      · rw [findRow_setRow_other _ _ _ _ hk]
        exact h
    · simpa [hp] using h

theorem upsert_parent_of_present (st : Store) (board source : String) (pk : J)
    (h : (findRow st (source, pk.pyStr)).isSome) :
    (upsert_parent st board source pk).2 = st := by
  unfold upsert_parent
  rcases ht : pk.truthy with _ | _
  · rfl
  · simp only [ht, Bool.not_true, Bool.false_eq_true, if_false]
    rcases hp : findRow st (source, pk.pyStr) with _ | rp
    · rw [hp] at h
      exact absurd h (by simp)
    · simp [hp]

theorem upsert_parent_key_present (st : Store) (board source : String) (pk : J)
    (h : pk.truthy = true) :
    (findRow (upsert_parent st board source pk).2 (source, pk.pyStr)).isSome := by
  unfold upsert_parent
  simp only [h, Bool.not_true, Bool.false_eq_true, if_false]
  rcases hp : findRow st (source, pk.pyStr) with _ | rp
  · simp [hp, findRow_setRow_self]
  · simp [hp]

theorem nodup_fst_upsert_parent (st : Store) (board source : String) (pk : J)
    (h : (st.map Prod.fst).Nodup) :
    ((upsert_parent st board source pk).2.map Prod.fst).Nodup := by
  unfold upsert_parent
  rcases ht : pk.truthy with _ | _
  · simpa [ht] using h
  · simp only [ht, Bool.not_true, Bool.false_eq_true, if_false]
    rcases hp : findRow st (source, pk.pyStr) with _ | rp
    · simpa [hp] using nodup_fst_setRow st _ _ h
    · simpa [hp] using h

/-- The blocked-flag projection of the row at a key is unchanged by the
placeholder-parent upsert unless it creates the row, in which case the
placeholder's `blocked_flag` is the model default `false`. -/
theorem blocked_flag_upsert_parent (st : Store) (board source : String) (pk : J)
    (k : Key) (h : (findRow st k).map WorkItemRow.blocked_flag ≠ some true) :
    (findRow (upsert_parent st board source pk).2 k).map WorkItemRow.blocked_flag
      ≠ some true := by
  unfold upsert_parent
  rcases ht : pk.truthy with _ | _
  · simpa [ht] using h
  · simp only [ht, Bool.not_true, Bool.false_eq_true, if_false]
    rcases hp : findRow st (source, pk.pyStr) with _ | rp
    · simp only [hp]
      by_cases hk : k = (source, pk.pyStr)
      · subst hk
        rw [findRow_setRow_self]
        simp [newRow]
      · rw [findRow_setRow_other _ _ _ _ hk]
        exact h
    · simpa [hp] using h

/-- The key-projection helpers used to state C2 and C3. -/
def jiraKeyOf (nz : JiraNormalizer) (rp : RawPayload) : Option String :=
  (jiraParse nz rp).map JiraExtract.keyStr

def jiraBlockedOf (nz : JiraNormalizer) (rp : RawPayload) : Option Bool :=
  (jiraParse nz rp).map JiraExtract.blocked_flag

def clickupKeyOf (nz : ClickUpNormalizer) (rp : RawPayload) : Option String :=
  (clickupParse nz rp).map ClickUpExtract.tidStr

theorem jira_normalizeOne_some (nz : JiraNormalizer) (now : Int) (st : Store)
    (rp : RawPayload) (e : JiraExtract) (hp : jiraParse nz rp = some e) :
    (nz.normalizeOne now st rp).1 =
      setRow (upsert_parent st nz.board Source.JIRA e.parent_key).2
        (Source.JIRA, e.keyStr)
        (applyJiraDefaults
          ((findRow (upsert_parent st nz.board Source.JIRA e.parent_key).2
              (Source.JIRA, e.keyStr)).getD (newRow Source.JIRA e.keyStr))
          nz.board nz.client_id e
          (upsert_parent st nz.board Source.JIRA e.parent_key).1
          (blockedSinceNext
            (findRow (upsert_parent st nz.board Source.JIRA e.parent_key).2
              (Source.JIRA, e.keyStr))
            e.blocked_flag now)) := by
  unfold JiraNormalizer.normalizeOne
  rw [hp]

theorem blockedSinceNext_unblocked (existing : Option WorkItemRow) (now : Int) :
    blockedSinceNext existing false now = none := by
  unfold blockedSinceNext
  rcases existing with _ | ex <;> simp

theorem blockedSinceNext_isSome_of_blocked (existing : Option WorkItemRow) (now : Int) :
    (blockedSinceNext existing true now).isSome := by
  unfold blockedSinceNext
  rcases existing with _ | ex
  · simp
  · rcases hf : ex.blocked_flag with _ | _
    · simp [hf]
    · rcases hs : ex.blocked_since with _ | s <;> simp [hf, hs]

theorem blockedSinceNext_fresh (existing : Option WorkItemRow) (now : Int)
    (h : existing.map WorkItemRow.blocked_flag ≠ some true) :
    blockedSinceNext existing true now = some now := by
  unfold blockedSinceNext
  rcases existing with _ | ex
  · rfl
  · rcases hf : ex.blocked_flag with _ | _
    · simp [hf]
    · exact absurd (by simp [hf]) h

theorem blockedSinceNext_keep (ex : WorkItemRow) (now v : Int)
    (hf : ex.blocked_flag = true) (hs : ex.blocked_since = some v) :
    blockedSinceNext (some ex) true now = some v := by
  unfold blockedSinceNext
  simp [hf, hs]

theorem applyJiraDefaults_blocked_flag (base : WorkItemRow) (board : String)
    (client_id : Option String) (e : JiraExtract) (ps : Option Key) (bs : Option Int) :
    (applyJiraDefaults base board client_id e ps bs).blocked_flag = e.blocked_flag := rfl

theorem applyJiraDefaults_blocked_since (base : WorkItemRow) (board : String)
    (client_id : Option String) (e : JiraExtract) (ps : Option Key) (bs : Option Int) :
    (applyJiraDefaults base board client_id e ps bs).blocked_since = bs := rfl

theorem applyJiraDefaults_idem (base : WorkItemRow) (board : String)
    (client_id : Option String) (e : JiraExtract) (ps : Option Key) (bs : Option Int) :
    applyJiraDefaults (applyJiraDefaults base board client_id e ps bs) board client_id e ps bs
      = applyJiraDefaults base board client_id e ps bs := rfl

/-! ## C2: blocked_since lifecycle across normalization runs -/

theorem jira_step_blocked_preserved (nz : JiraNormalizer) (rp : RawPayload)
    (e : JiraExtract) (hp : jiraParse nz rp = some e) (hb : e.blocked_flag = true)
    (st : Store) (now v : Int)
    (hrow : (findRow st (Source.JIRA, e.keyStr)).map
        (fun r => (r.blocked_flag, r.blocked_since)) = some (true, some v)) :
    (findRow ((nz.normalizeOne now st rp).1) (Source.JIRA, e.keyStr)).map
        (fun r => (r.blocked_flag, r.blocked_since)) = some (true, some v) := by
  obtain ⟨r, hr, hrv⟩ := Option.map_eq_some'.mp hrow
  have hrf : r.blocked_flag = true := by
    have h2 := congrArg Prod.fst hrv
    simpa using h2
  have hrs : r.blocked_since = some v := by
    have h2 := congrArg Prod.snd hrv
    simpa using h2
  have hup : findRow (upsert_parent st nz.board Source.JIRA e.parent_key).2
      (Source.JIRA, e.keyStr) = some r := findRow_upsert_parent_of_some _ _ _ _ _ _ hr
  rw [jira_normalizeOne_some nz now st rp e hp, findRow_setRow_self, hup, hb,
    blockedSinceNext_keep r now v hrf hrs]
  simp [applyJiraDefaults_blocked_flag, applyJiraDefaults_blocked_since, hb]

theorem jira_step_blocked_fresh (nz : JiraNormalizer) (rp : RawPayload)
    (e : JiraExtract) (hp : jiraParse nz rp = some e) (hb : e.blocked_flag = true)
    (st : Store) (now : Int)
    (hstart : (findRow st (Source.JIRA, e.keyStr)).map WorkItemRow.blocked_flag
      ≠ some true) :
    (findRow ((nz.normalizeOne now st rp).1) (Source.JIRA, e.keyStr)).map
        (fun r => (r.blocked_flag, r.blocked_since)) = some (true, some now) := by
  have h2 := blocked_flag_upsert_parent st nz.board Source.JIRA e.parent_key
    (Source.JIRA, e.keyStr) hstart
  rw [jira_normalizeOne_some nz now st rp e hp, findRow_setRow_self, hb,
    blockedSinceNext_fresh _ _ h2]
  simp [applyJiraDefaults_blocked_flag, applyJiraDefaults_blocked_since, hb]

theorem jira_step_unblocked (nz : JiraNormalizer) (rp : RawPayload)
    (e : JiraExtract) (hp : jiraParse nz rp = some e) (hb : e.blocked_flag = false)
    (st : Store) (now : Int) :
    (findRow ((nz.normalizeOne now st rp).1) (Source.JIRA, e.keyStr)).map
        (fun r => (r.blocked_flag, r.blocked_since)) = some (false, none) := by
  rw [jira_normalizeOne_some nz now st rp e hp, findRow_setRow_self, hb,
    blockedSinceNext_unblocked]
  simp [applyJiraDefaults_blocked_flag, applyJiraDefaults_blocked_since, hb]

/-- A sequence of normalization runs, each with its own raw record and clock. -/
def jira_runs (nz : JiraNormalizer) (runs : List (RawPayload × Int)) (st : Store) : Store :=
  runs.foldl (fun s pr => (nz.normalizeOne pr.2 s pr.1).1) st

theorem jira_runs_blocked_preserved (nz : JiraNormalizer) (k : String)
    (runs : List (RawPayload × Int)) (st : Store) (v : Int)
    (hruns : ∀ p ∈ runs, jiraKeyOf nz p.1 = some k ∧ jiraBlockedOf nz p.1 = some true)
    (hrow : (findRow st (Source.JIRA, k)).map
        (fun r => (r.blocked_flag, r.blocked_since)) = some (true, some v)) :
    (findRow (jira_runs nz runs st) (Source.JIRA, k)).map
        (fun r => (r.blocked_flag, r.blocked_since)) = some (true, some v) := by
  induction runs generalizing st with
  | nil => exact hrow
  | cons p ps ih =>
    obtain ⟨hk, hb⟩ := hruns p (by simp)
    obtain ⟨e, hpe, hke⟩ := Option.map_eq_some'.mp hk
    obtain ⟨e2, hpe2, hbe⟩ := Option.map_eq_some'.mp hb
    have he2 : e2 = e := by
      rw [hpe] at hpe2
      exact (Option.some.inj hpe2).symm
    rw [he2] at hbe
    subst hke
    have step := jira_step_blocked_preserved nz p.1 e hpe hbe st p.2 v hrow
    have hrun : jira_runs nz (p :: ps) st = jira_runs nz ps ((nz.normalizeOne p.2 st p.1).1) :=
      rfl
    rw [hrun]
    exact ih _ (fun q hq => hruns q (List.mem_cons_of_mem _ hq)) step

/-- **C2** across any sequence of Jira normalization runs of one item:
`blocked_since` is set to the run's clock on the false-to-true transition of
`blocked_flag`, keeps exactly that value over any further runs that still
report the item blocked (whatever else those payloads contain), is reset to
null by a run reporting it unblocked, and is set to the fresh clock of the
next run reporting it blocked again. -/
theorem C2_blocked_since_lifecycle (nz : JiraNormalizer) (st0 : Store) (k : String)
    (rp0 : RawPayload) (now0 : Int) (runs : List (RawPayload × Int))
    (rpu : RawPayload) (nowu : Int) (rp2 : RawPayload) (now2 : Int)
    (h0k : jiraKeyOf nz rp0 = some k) (h0b : jiraBlockedOf nz rp0 = some true)
    (hstart : (findRow st0 (Source.JIRA, k)).map WorkItemRow.blocked_flag ≠ some true)
    (hruns : ∀ p ∈ runs, jiraKeyOf nz p.1 = some k ∧ jiraBlockedOf nz p.1 = some true)
    (huk : jiraKeyOf nz rpu = some k) (hub : jiraBlockedOf nz rpu = some false)
    (h2k : jiraKeyOf nz rp2 = some k) (h2b : jiraBlockedOf nz rp2 = some true) :
    ((findRow ((nz.normalizeOne now0 st0 rp0).1) (Source.JIRA, k)).map
        (fun r => (r.blocked_flag, r.blocked_since)) = some (true, some now0)) ∧
    ((findRow (jira_runs nz runs ((nz.normalizeOne now0 st0 rp0).1)) (Source.JIRA, k)).map
        (fun r => (r.blocked_flag, r.blocked_since)) = some (true, some now0)) ∧
    ((findRow ((nz.normalizeOne nowu
          (jira_runs nz runs ((nz.normalizeOne now0 st0 rp0).1)) rpu).1) (Source.JIRA, k)).map
        (fun r => (r.blocked_flag, r.blocked_since)) = some (false, none)) ∧
    ((findRow ((nz.normalizeOne now2
          ((nz.normalizeOne nowu
            (jira_runs nz runs ((nz.normalizeOne now0 st0 rp0).1)) rpu).1) rp2).1)
        (Source.JIRA, k)).map
        (fun r => (r.blocked_flag, r.blocked_since)) = some (true, some now2)) := by
  obtain ⟨e0, hpe0, hke0⟩ := Option.map_eq_some'.mp h0k
  obtain ⟨e0', hpe0', hbe0⟩ := Option.map_eq_some'.mp h0b
  have he0 : e0' = e0 := by
    rw [hpe0] at hpe0'
    exact (Option.some.inj hpe0').symm
  rw [he0] at hbe0
  subst hke0
  obtain ⟨eu, hpeu, hkeu⟩ := Option.map_eq_some'.mp huk
  obtain ⟨eu', hpeu', hbeu⟩ := Option.map_eq_some'.mp hub
  have heu : eu' = eu := by
    rw [hpeu] at hpeu'
    exact (Option.some.inj hpeu').symm
  rw [heu] at hbeu
  obtain ⟨e2, hpe2, hke2⟩ := Option.map_eq_some'.mp h2k
  obtain ⟨e2', hpe2', hbe2⟩ := Option.map_eq_some'.mp h2b
  have he2 : e2' = e2 := by
    rw [hpe2] at hpe2'
    exact (Option.some.inj hpe2').symm
  rw [he2] at hbe2
  have s1 := jira_step_blocked_fresh nz rp0 e0 hpe0 hbe0 st0 now0 hstart
  have s2 := jira_runs_blocked_preserved nz e0.keyStr runs _ now0 hruns s1
  have s3 := jira_step_unblocked nz rpu eu hpeu hbeu
    (jira_runs nz runs ((nz.normalizeOne now0 st0 rp0).1)) nowu
  rw [hkeu] at s3
  have s4 := jira_step_blocked_fresh nz rp2 e2 hpe2 hbe2
    ((nz.normalizeOne nowu (jira_runs nz runs ((nz.normalizeOne now0 st0 rp0).1)) rpu).1)
    now2 (by
      rw [hke2]
      obtain ⟨r, hr, hrv⟩ := Option.map_eq_some'.mp s3
      have hrf : r.blocked_flag = false := by
        have h2 := congrArg Prod.fst hrv
        simpa using h2
      rw [hr]
      simp [hrf])
  rw [hke2] at s4
  exact ⟨s1, s2, s3, s4⟩

/-- Blocked Jira record for the C2 witness (status name contains "block"). -/
def rpBlockedA : RawPayload :=
  { source := Source.JIRA, object_type := "issue",
    payload := J.obj
      [("key", J.s "PROJ-2"),
       ("fields", J.obj [("summary", J.s "first fetch"),
                         ("status", J.obj [("name", J.s "Blocked")])])] }

/-- A later fetch of the same item, still blocked, with other fields changed. -/
def rpBlockedB : RawPayload :=
  { source := Source.JIRA, object_type := "issue",
    payload := J.obj
      [("key", J.s "PROJ-2"),
       ("fields", J.obj [("summary", J.s "renamed meanwhile"),
                         ("labels", J.arr [J.s "urgent"]),
                         ("status", J.obj [("name", J.s "Blocked")])])] }

/-- A fetch of the same item no longer blocked. -/
def rpUnblocked : RawPayload :=
  { source := Source.JIRA, object_type := "issue",
    payload := J.obj
      [("key", J.s "PROJ-2"),
       ("fields", J.obj [("summary", J.s "moving again"),
                         ("status", J.obj [("name", J.s "In Progress")])])] }

/-- **C2 witness**: the lifecycle theorem at concrete records — blocked at
time 10, re-fetched still blocked (title changed) at 50, unblocked at 80,
blocked again at 120. -/
theorem C2_blocked_since_lifecycle_witness :
    ((findRow ((jiraNormC4.normalizeOne 10 [] rpBlockedA).1) (Source.JIRA, "PROJ-2")).map
        (fun r => (r.blocked_flag, r.blocked_since)) = some (true, some 10)) ∧
    ((findRow (jira_runs jiraNormC4 [(rpBlockedB, 50)]
          ((jiraNormC4.normalizeOne 10 [] rpBlockedA).1)) (Source.JIRA, "PROJ-2")).map
        (fun r => (r.blocked_flag, r.blocked_since)) = some (true, some 10)) ∧
    ((findRow ((jiraNormC4.normalizeOne 80
          (jira_runs jiraNormC4 [(rpBlockedB, 50)]
            ((jiraNormC4.normalizeOne 10 [] rpBlockedA).1)) rpUnblocked).1)
        (Source.JIRA, "PROJ-2")).map
        (fun r => (r.blocked_flag, r.blocked_since)) = some (false, none)) ∧
    ((findRow ((jiraNormC4.normalizeOne 120
          ((jiraNormC4.normalizeOne 80
            (jira_runs jiraNormC4 [(rpBlockedB, 50)]
              ((jiraNormC4.normalizeOne 10 [] rpBlockedA).1)) rpUnblocked).1) rpBlockedA).1)
        (Source.JIRA, "PROJ-2")).map
        (fun r => (r.blocked_flag, r.blocked_since)) = some (true, some 120)) :=
  C2_blocked_since_lifecycle jiraNormC4 [] "PROJ-2" rpBlockedA 10 [(rpBlockedB, 50)]
    rpUnblocked 80 rpBlockedA 120 rfl rfl (by decide)
    (by
      intro p hp
      rw [List.mem_singleton] at hp
      subst hp
      exact ⟨rfl, rfl⟩)
    rfl rfl rfl rfl

/-! ## C3: idempotent re-normalization -/

theorem upsert_parent_not_truthy (st : Store) (board source : String) (pk : J)
    (h : pk.truthy = false) : (upsert_parent st board source pk).2 = st := by
  unfold upsert_parent
  simp [h]

theorem blockedSinceNext_stable (ex : Option WorkItemRow) (f : Bool) (now1 now2 : Int)
    (r : WorkItemRow) (hf : r.blocked_flag = f)
    (hs : r.blocked_since = blockedSinceNext ex f now1) :
    blockedSinceNext (some r) f now2 = blockedSinceNext ex f now1 := by
  rcases f with _ | _
  · rw [blockedSinceNext_unblocked, blockedSinceNext_unblocked]
  · obtain ⟨v, hv⟩ := Option.isSome_iff_exists.mp (blockedSinceNext_isSome_of_blocked ex now1)
    rw [hv]
    exact blockedSinceNext_keep r now2 v hf (by rw [hs, hv])

theorem clickup_normalizeOne_some (nz : ClickUpNormalizer) (st : Store)
    (rp : RawPayload) (e : ClickUpExtract) (hp : clickupParse nz rp = some e) :
    (nz.normalizeOne st rp).1 =
      setRow st (Source.CLICKUP, e.tidStr)
        (applyClickUpDefaults
          ((findRow st (Source.CLICKUP, e.tidStr)).getD (newRow Source.CLICKUP e.tidStr))
          nz.board nz.client_id e) := by
  unfold ClickUpNormalizer.normalizeOne
  rw [hp]

theorem applyClickUpDefaults_idem (base : WorkItemRow) (board : String)
    (client_id : Option String) (e : ClickUpExtract) :
    applyClickUpDefaults (applyClickUpDefaults base board client_id e) board client_id e
      = applyClickUpDefaults base board client_id e := rfl

/-- **C3** normalizing the same raw record twice is an idempotent upsert: the
second run leaves the row for `(source, source_id)` with exactly the same
field values as after the first run, and (keys being unique) exactly one row
exists for that key — for both the Jira and the ClickUp normalizer. -/
theorem C3_idempotent_normalization :
    (∀ (nz : JiraNormalizer) (rp : RawPayload) (st : Store) (k : String) (now1 now2 : Int),
      jiraKeyOf nz rp = some k → (st.map Prod.fst).Nodup →
      (findRow ((nz.normalizeOne now2 ((nz.normalizeOne now1 st rp).1) rp).1)
          (Source.JIRA, k)
        = findRow ((nz.normalizeOne now1 st rp).1) (Source.JIRA, k)) ∧
      ((nz.normalizeOne now2 ((nz.normalizeOne now1 st rp).1) rp).1.countP
          (fun en => en.1 == (Source.JIRA, k)) = 1)) ∧
    (∀ (nz : ClickUpNormalizer) (rp : RawPayload) (st : Store) (k : String),
      clickupKeyOf nz rp = some k → (st.map Prod.fst).Nodup →
      (findRow ((nz.normalizeOne ((nz.normalizeOne st rp).1) rp).1) (Source.CLICKUP, k)
        = findRow ((nz.normalizeOne st rp).1) (Source.CLICKUP, k)) ∧
      ((nz.normalizeOne ((nz.normalizeOne st rp).1) rp).1.countP
          (fun en => en.1 == (Source.CLICKUP, k)) = 1)) := by
  constructor
  · intro nz rp st k now1 now2 hkey hnd
    obtain ⟨e, hp, hke⟩ := Option.map_eq_some'.mp hkey
    subst hke
    have h1 := jira_normalizeOne_some nz now1 st rp e hp
    have h2 := jira_normalizeOne_some nz now2 ((nz.normalizeOne now1 st rp).1) rp e hp
    set kk : Key := (Source.JIRA, e.keyStr) with hkk
    set P1 := upsert_parent st nz.board Source.JIRA e.parent_key with hP1
    set ex1 := findRow P1.2 kk with hex1
    set bs1 := blockedSinceNext ex1 e.blocked_flag now1 with hbs1
    set row1 := applyJiraDefaults (ex1.getD (newRow Source.JIRA e.keyStr))
      nz.board nz.client_id e P1.1 bs1 with hrow1
    have hst1 : (nz.normalizeOne now1 st rp).1 = setRow P1.2 kk row1 := h1
    have hf1 : findRow ((nz.normalizeOne now1 st rp).1) kk = some row1 := by
      rw [hst1]
      exact findRow_setRow_self _ _ _
    have hnd1 : (((nz.normalizeOne now1 st rp).1).map Prod.fst).Nodup := by
      rw [hst1]
      exact nodup_fst_setRow _ _ _ (nodup_fst_upsert_parent _ _ _ _ hnd)
    -- the second run's parent upsert changes nothing
    have hP2 : (upsert_parent ((nz.normalizeOne now1 st rp).1) nz.board Source.JIRA
        e.parent_key).2 = (nz.normalizeOne now1 st rp).1 := by
      rcases hpt : e.parent_key.truthy with _ | _
      · exact upsert_parent_not_truthy _ _ _ _ hpt
      · apply upsert_parent_of_present
        by_cases hkpk : kk = (Source.JIRA, e.parent_key.pyStr)
        · rw [← hkpk, hf1]
          rfl
        · rw [hst1, findRow_setRow_other _ _ _ _ (fun hc => hkpk hc.symm)]
          exact upsert_parent_key_present _ _ _ _ hpt
    have hP2fst : (upsert_parent ((nz.normalizeOne now1 st rp).1) nz.board Source.JIRA
        e.parent_key).1 = P1.1 := by
      rw [upsert_parent_fst, hP1, upsert_parent_fst]
    have hex2 : findRow (upsert_parent ((nz.normalizeOne now1 st rp).1) nz.board Source.JIRA
        e.parent_key).2 kk = some row1 := by
      rw [hP2]
      exact hf1
    have hbs2 : blockedSinceNext (some row1) e.blocked_flag now2 = bs1 := by
      apply blockedSinceNext_stable ex1 e.blocked_flag now1 now2 row1
      · rw [hrow1]
        rfl
      · rw [hrow1, hbs1]
        rfl
    have hst2 : (nz.normalizeOne now2 ((nz.normalizeOne now1 st rp).1) rp).1
        = setRow ((nz.normalizeOne now1 st rp).1) kk row1 := by
      rw [h2, hex2, hbs2, hP2, hP2fst]
      simp only [Option.getD_some]
      rw [hrow1]
      rw [applyJiraDefaults_idem]
    constructor
    · rw [hst2, findRow_setRow_self, hf1]
    · rw [hst2]
      exact countKey_setRow_self _ _ _ hnd1
  · intro nz rp st k hkey hnd
    obtain ⟨e, hp, hke⟩ := Option.map_eq_some'.mp hkey
    subst hke
    have h1 := clickup_normalizeOne_some nz st rp e hp
    have h2 := clickup_normalizeOne_some nz ((nz.normalizeOne st rp).1) rp e hp
    set kk : Key := (Source.CLICKUP, e.tidStr) with hkk
    set row1 := applyClickUpDefaults ((findRow st kk).getD (newRow Source.CLICKUP e.tidStr))
      nz.board nz.client_id e with hrow1
    have hf1 : findRow ((nz.normalizeOne st rp).1) kk = some row1 := by
      rw [h1]
      exact findRow_setRow_self _ _ _
    have hnd1 : (((nz.normalizeOne st rp).1).map Prod.fst).Nodup := by
      rw [h1]
      exact nodup_fst_setRow _ _ _ hnd
    have hst2 : (nz.normalizeOne ((nz.normalizeOne st rp).1) rp).1
        = setRow ((nz.normalizeOne st rp).1) kk row1 := by
      rw [h2, hf1]
      simp only [Option.getD_some]
      rw [hrow1, applyClickUpDefaults_idem]
    constructor
    · rw [hst2, findRow_setRow_self, hf1]
    · rw [hst2]
      exact countKey_setRow_self _ _ _ hnd1

/-- **C3 witness**: the double-run equalities at the concrete C4 Jira record
and a concrete ClickUp task. -/
theorem C3_idempotent_normalization_witness :
    ((findRow ((jiraNormC4.normalizeOne 200 ((jiraNormC4.normalizeOne 100 [] rpC4).1)
          rpC4).1) (Source.JIRA, "PROJ-1")
      = findRow ((jiraNormC4.normalizeOne 100 [] rpC4).1) (Source.JIRA, "PROJ-1")) ∧
     ((jiraNormC4.normalizeOne 200 ((jiraNormC4.normalizeOne 100 [] rpC4).1) rpC4).1.countP
        (fun en => en.1 == (Source.JIRA, "PROJ-1")) = 1)) ∧
    ((findRow ((ClickUpNormalizer.init "B" none (J.obj [])).normalizeOne
          (((ClickUpNormalizer.init "B" none (J.obj [])).normalizeOne []
            ⟨Source.CLICKUP, "task", J.obj [("id", J.s "t1"), ("name", J.s "A task")]⟩).1)
          ⟨Source.CLICKUP, "task", J.obj [("id", J.s "t1"), ("name", J.s "A task")]⟩).1
        (Source.CLICKUP, "t1")
      = findRow (((ClickUpNormalizer.init "B" none (J.obj [])).normalizeOne []
          ⟨Source.CLICKUP, "task", J.obj [("id", J.s "t1"), ("name", J.s "A task")]⟩).1)
        (Source.CLICKUP, "t1")) ∧
     (((ClickUpNormalizer.init "B" none (J.obj [])).normalizeOne
          (((ClickUpNormalizer.init "B" none (J.obj [])).normalizeOne []
            ⟨Source.CLICKUP, "task", J.obj [("id", J.s "t1"), ("name", J.s "A task")]⟩).1)
          ⟨Source.CLICKUP, "task", J.obj [("id", J.s "t1"), ("name", J.s "A task")]⟩).1.countP
        (fun en => en.1 == (Source.CLICKUP, "t1")) = 1)) :=
  ⟨C3_idempotent_normalization.1 jiraNormC4 rpC4 [] "PROJ-1" 100 200 rfl (by simp),
   C3_idempotent_normalization.2 (ClickUpNormalizer.init "B" none (J.obj []))
     ⟨Source.CLICKUP, "task", J.obj [("id", J.s "t1"), ("name", J.s "A task")]⟩ [] "t1"
     rfl (by simp)⟩

/-- The PR row the GitHub normalizer produces for `rpC8`. -/
def rowC8 : PRRow :=
  { pr_id := "acme/app#7"
    source := Source.GITHUB
    title := "Fix PROJ-9"
    branch := J.null
    opened_at := some (epochUs 2023 12 31 0 0 0 0)
    first_reviewed_at := some (epochUs 2024 1 2 0 0 0 0)
    merged_at := none
    author_id := J.s "carol"
    reviewer_ids := [J.s "bob", J.s "alice"]
    meta := J.obj [("repo", J.s "acme/app")] }

/-- **C8 witness**: the amended derivation applied at the concrete
out-of-order-review record. -/
theorem C8_first_review_and_reviewers_witness :
    rowC8.first_reviewed_at
        = (((((rpC8.payload.pyOr (J.obj [])).get "reviews").pyOr (J.arr [])).asList).filterMap
            (fun r => to_dt (r.get "submitted_at"))).head? ∧
    rowC8.reviewer_ids = spec_ordered_unique
      (((((rpC8.payload.pyOr (J.obj [])).get "reviews").pyOr (J.arr [])).asList).filterMap
        spec_reviewer_id) :=
  C8_first_review_and_reviewers rpC8 rowC8 (by rfl)
